import Mathlib

/-!
Formal model of the Zapier Lighthouse WASM audit engine
(src-wasm/src/lib.rs and src-wasm/src/audit_schema_v1.rs).

Conventions of the shallow embedding:
* f32 values are modelled by the symbolic type `F`: exact rationals plus
  the special values NaN / +inf / -inf.  Finite arithmetic is exact
  (machine rounding is not modelled); the special values propagate as in
  IEEE 754, which is what the NaN/infinity guards in the source inspect.
* u32 / u64 / usize quantities are modelled as `Nat`; counter arithmetic
  in the engine is modelled exactly (the engine treats overflow as a
  program error, debug builds panic on it).
* `HashMap` contents are modelled as association lists; the list order
  stands for the map iteration order chosen by the runtime, which is not
  a function of the input bytes.
* External libraries (zip extraction, serde_json text parsing, the csv
  reader, the wasm-bindgen boundary) are modelled at their output
  boundary: an archive entry carries the parsed JSON tree or the parsed
  CSV rows that the library would hand to the engine.
* Display-only string fields (message/details/formatted_* strings built
  with float formatting) are omitted from the records; no analysed
  quantity depends on them.
-/

/-- Symbolic model of an f32 value: an exact rational or a special value. -/
inductive F where
  | fin (q : ℚ)
  | nan
  | inf
  | ninf
deriving DecidableEq

/-- Model of f32::is_nan. -/
def F.isNaN : F → Bool
  | .nan => true
  | _ => false

/-- Model of f32::is_infinite. -/
def F.isInfinite : F → Bool
  | .inf => true
  | .ninf => true
  | _ => false

/-- f32 multiplication on the symbolic values (exact on finite values). -/
def F.mul : F → F → F
  | .nan, _ => .nan
  | _, .nan => .nan
  | .fin a, .fin b => .fin (a * b)
  | .fin a, .inf => if 0 < a then .inf else if a < 0 then .ninf else .nan
  | .fin a, .ninf => if 0 < a then .ninf else if a < 0 then .inf else .nan
  | .inf, .fin b => if 0 < b then .inf else if b < 0 then .ninf else .nan
  | .ninf, .fin b => if 0 < b then .ninf else if b < 0 then .inf else .nan
  | .inf, .inf => .inf
  | .inf, .ninf => .ninf
  | .ninf, .inf => .ninf
  | .ninf, .ninf => .inf

/-- f32 addition on the symbolic values (exact on finite values). -/
def F.add : F → F → F
  | .nan, _ => .nan
  | _, .nan => .nan
  | .fin a, .fin b => .fin (a + b)
  | .fin _, .inf => .inf
  | .inf, .fin _ => .inf
  | .fin _, .ninf => .ninf
  | .ninf, .fin _ => .ninf
  | .inf, .inf => .inf
  | .ninf, .ninf => .ninf
  | .inf, .ninf => .nan
  | .ninf, .inf => .nan

/-- f32 division on the symbolic values (exact on finite values; the
sign of zero is not tracked, division by zero of a nonzero value gives
a signed infinity as in IEEE 754). -/
def F.div : F → F → F
  | .nan, _ => .nan
  | _, .nan => .nan
  | .fin a, .fin b =>
      if b = 0 then (if a = 0 then .nan else if 0 < a then .inf else .ninf)
      else .fin (a / b)
  | .fin _, .inf => .fin 0
  | .fin _, .ninf => .fin 0
  | .inf, .fin b => if b < 0 then .ninf else .inf
  | .ninf, .fin b => if b < 0 then .inf else .ninf
  | .inf, _ => .nan
  | .ninf, _ => .nan

/-- f32 strict comparison; any comparison against NaN is false. -/
def F.lt : F → F → Bool
  | .nan, _ => false
  | _, .nan => false
  | .fin a, .fin b => decide (a < b)
  | .fin _, .inf => true
  | .fin _, .ninf => false
  | .inf, _ => false
  | .ninf, .ninf => false
  | .ninf, _ => true

/-- f32 non-strict comparison; any comparison against NaN is false. -/
def F.le : F → F → Bool
  | .nan, _ => false
  | _, .nan => false
  | .fin a, .fin b => decide (a ≤ b)
  | .fin _, .inf => true
  | .fin _, .ninf => false
  | .inf, .inf => true
  | .inf, _ => false
  | .ninf, _ => true

/-- Model of f32::partial_cmp. -/
def F.pcmp : F → F → Option Ordering
  | .nan, _ => none
  | _, .nan => none
  | .fin a, .fin b => some (if a < b then .lt else if b < a then .gt else .eq)
  | .fin _, .inf => some .lt
  | .fin _, .ninf => some .gt
  | .inf, .inf => some .eq
  | .inf, _ => some .gt
  | .ninf, .ninf => some .eq
  | .ninf, _ => some .lt

/-- Sum of a list of f32 values, folded from 0.0 as Iterator::sum does. -/
def F.sumList (l : List F) : F := l.foldl F.add (.fin 0)

/-- Model of an `as u32` cast from f32: truncation toward zero with
saturation; NaN casts to 0. -/
def F.toU32 : F → Nat
  | .nan => 0
  | .inf => 2 ^ 32 - 1
  | .ninf => 0
  | .fin q => if q ≤ 0 then 0 else min q.floor.toNat (2 ^ 32 - 1)

/-- lib.rs guard_nan: clamp NaN and infinities to 0.0. -/
def guard_nan (value : F) : F :=
  if value.isNaN || value.isInfinite then .fin 0 else value

/-- lib.rs calculate_task_volume: runs times steps. -/
def calculate_task_volume (runs : Nat) (steps : Nat) : Nat := runs * steps

-- ============================================================
-- String helpers (ASCII-level models of the str operations used)
-- ============================================================

/-- Lower-casing of a string, character by character. -/
def strLower (s : String) : String := String.mk (s.data.map Char.toLower)

/-- Whether the first character list starts the second one. -/
def seqStarts : List Char → List Char → Bool
  | [], _ => true
  | _ :: _, [] => false
  | a :: as, b :: bs => a == b && seqStarts as bs

/-- Whether the pattern occurs contiguously inside the character list. -/
def seqHas (pat : List Char) : List Char → Bool
  | [] => seqStarts pat []
  | c :: t => seqStarts pat (c :: t) || seqHas pat t

/-- Model of str::contains for literal patterns. -/
def strContainsSub (s pat : String) : Bool := seqHas pat.data s.data

/-- Model of str::ends_with. -/
def strEndsWith (s suf : String) : Bool :=
  seqStarts suf.data.reverse s.data.reverse

/-- Worker for trim_end_matches: repeatedly strip the (reversed) suffix
from the (reversed) string; the fuel bounds the number of rounds, the
string length always suffices. -/
def stripRevGo (sufRev : List Char) : Nat → List Char → List Char
  | 0, rev => rev
  | fuel + 1, rev =>
      if sufRev.length > 0 && seqStarts sufRev rev then
        stripRevGo sufRev fuel (rev.drop sufRev.length)
      else rev

/-- Model of str::trim_end_matches with a literal pattern. -/
def trimEndMatches (s suf : String) : String :=
  String.mk ((stripRevGo suf.data.reverse s.data.length s.data.reverse).reverse)

/-- Model of Iterator::max on strings (byte-lexicographic order, the
last maximal element is kept, as Rust's max does). -/
def listMaxStr (l : List String) : Option String :=
  l.foldl
    (fun acc s =>
      match acc with
      | none => some s
      | some m => if decide (s < m) then some m else some s)
    none

-- ============================================================
-- Association-list models of HashMap values
-- ============================================================

/-- Model of HashMap::get. -/
def alGet {α : Type} (m : List (Nat × α)) (k : Nat) : Option α :=
  (m.find? (fun e => e.1 == k)).map (·.2)

/-- Model of entry(k).or_insert(d) followed by an update of the entry. -/
def alUpdate {α : Type} : List (Nat × α) → Nat → (α → α) → α → List (Nat × α)
  | [], k, f, d => [(k, f d)]
  | (k0, v) :: t, k, f, d =>
      if k0 == k then (k0, f v) :: t else (k0, v) :: alUpdate t k f d

-- ============================================================
-- JSON trees (the output of serde_json parsing)
-- ============================================================

/-- A parsed JSON document as handed to the engine by serde_json.
Numbers are carried as exact rationals. -/
inductive Json where
  | null
  | bool (b : Bool)
  | num (q : ℚ)
  | str (s : String)
  | arr (items : List Json)
  | obj (fields : List (String × Json))

/-- Model of Value::get on an object (objects are assumed canonical:
the first binding of a key is the binding). -/
def Json.get : Json → String → Option Json
  | .obj fields, k => (fields.find? (fun f => f.1 == k)).map (·.2)
  | _, _ => none

/-- Model of Value::as_u64. -/
def Json.asU64 : Json → Option Nat
  | .num q =>
      if q.den = 1 ∧ 0 ≤ q.num ∧ q.num < (2 : ℤ) ^ 64 then some q.num.toNat else none
  | _ => none

/-- Model of Value::as_str. -/
def Json.asStr : Json → Option String
  | .str s => some s
  | _ => none

/-- Model of Value::as_bool. -/
def Json.asBool : Json → Option Bool
  | .bool b => some b
  | _ => none

/-- Model of Value::as_array. -/
def Json.asArr : Json → Option (List Json)
  | .arr items => some items
  | _ => none

/-- Model of Value::as_object. -/
def Json.asObj : Json → Option (List (String × Json))
  | .obj fields => some fields
  | _ => none

-- ============================================================
-- Pricing (ZAPIER TIER-BASED BILLING ENGINE)
-- ============================================================

/-- lib.rs ZapierPlan. -/
inductive ZapierPlan where
  | professional
  | team
deriving DecidableEq

/-- The two static tier tables, made explicit so that the invariant
check can be stated about them (they are constants in the source). -/
structure PricingTables where
  professional : List (Nat × ℚ)
  team : List (Nat × ℚ)

/-- lib.rs ZapierPricing::PROFESSIONAL (task limit, monthly USD price). -/
def ZapierPricing.PROFESSIONAL : List (Nat × ℚ) :=
  [(750, 1999/100), (1500, 39), (2000, 49), (5000, 89), (10000, 129),
   (20000, 189), (50000, 289), (100000, 489), (200000, 769),
   (300000, 1069), (400000, 1269), (500000, 1499), (750000, 1999),
   (1000000, 2199), (1500000, 2999), (1750000, 3199), (2000000, 3389)]

/-- lib.rs ZapierPricing::TEAM (task limit, monthly USD price). -/
def ZapierPricing.TEAM : List (Nat × ℚ) :=
  [(2000, 69), (5000, 119), (10000, 169), (20000, 249), (50000, 399),
   (100000, 599), (200000, 999), (300000, 1199), (400000, 1399),
   (500000, 1799), (750000, 2199), (1000000, 2499), (1500000, 3399),
   (1750000, 3799), (2000000, 3999)]

/-- The pricing configuration compiled into the engine. -/
def ZapierPricing.tables : PricingTables :=
  { professional := ZapierPricing.PROFESSIONAL, team := ZapierPricing.TEAM }

/-- Tier table of a plan. -/
def PricingTables.tiersFor (t : PricingTables) : ZapierPlan → List (Nat × ℚ)
  | .professional => t.professional
  | .team => t.team

/-- lib.rs PricingResult. -/
structure PricingResult where
  plan : ZapierPlan
  tier_tasks : Nat
  tier_price : ℚ
  cost_per_task : ℚ
  actual_usage : Nat
deriving DecidableEq

/-- lib.rs ZapierPricing::resolve.  Returns none exactly when the tier
table is empty, where the source would panic on last().unwrap(). -/
def ZapierPricing.resolve (tables : PricingTables) (plan : ZapierPlan)
    (actual_usage : Nat) : Option PricingResult :=
  let tiers := tables.tiersFor plan
  let chosen :=
    match tiers.find? (fun t => decide (actual_usage ≤ t.1)) with
    | some t => some t
    | none => tiers.getLast?
  chosen.map (fun t =>
    { plan := plan
      tier_tasks := t.1
      tier_price := t.2
      cost_per_task := if 0 < t.1 then t.2 / (t.1 : ℚ) else 0
      actual_usage := actual_usage })

/-- lib.rs ZapierPricing::default_fallback. -/
def ZapierPricing.default_fallback (tables : PricingTables) : Option PricingResult :=
  ZapierPricing.resolve tables .professional 2000

/-- Worker for the sortedness scan of validate_pricing_tiers: the first
adjacent non-increase, reported as (later value, earlier value, index of
the later element). -/
def adjacentViolation : Nat → List (Nat × ℚ) → Option (Nat × Nat × Nat)
  | _, [] => none
  | _, [_] => none
  | i, a :: b :: rest =>
      if b.1 ≤ a.1 then some (b.1, a.1, i + 1)
      else adjacentViolation (i + 1) (b :: rest)

/-- lib.rs ZapierPricing::validate_pricing_tiers. -/
def ZapierPricing.validate_pricing_tiers (t : PricingTables) : Except String Unit :=
  if t.professional.isEmpty then
    .error "CRITICAL: Professional pricing tiers are empty!"
  else if t.team.isEmpty then
    .error "CRITICAL: Team pricing tiers are empty!"
  else
    match adjacentViolation 0 t.professional with
    | some (x, y, i) =>
        .error ("CRITICAL: Professional pricing tiers not sorted! " ++ toString x
          ++ " <= " ++ toString y ++ " at index " ++ toString i)
    | none =>
        match adjacentViolation 0 t.team with
        | some (x, y, i) =>
            .error ("CRITICAL: Team pricing tiers not sorted! " ++ toString x
              ++ " <= " ++ toString y ++ " at index " ++ toString i)
        | none => .ok ()

-- ============================================================
-- Generic list lemmas for the pricing claims
-- ============================================================

/-- On a strictly ascending tier list, find? returns the least tier
whose capacity accommodates the usage. -/
theorem find_min_of_sorted :
    ∀ {l : List (Nat × ℚ)}, l.Pairwise (fun a b => a.1 < b.1) →
      ∀ {u : Nat} {t : Nat × ℚ}, l.find? (fun x => decide (u ≤ x.1)) = some t →
        t ∈ l ∧ u ≤ t.1 ∧ ∀ s ∈ l, u ≤ s.1 → t.1 ≤ s.1 := by
  intro l hs u t hfind
  induction l with
  | nil => simp [List.find?] at hfind
  | cons a tl ih =>
      rw [List.find?_cons] at hfind
      by_cases hua : u ≤ a.1
      · simp [hua] at hfind
        subst hfind
        refine ⟨List.mem_cons_self _ _, hua, ?_⟩
        intro s hsmem _
        rcases List.mem_cons.mp hsmem with hsa | hstl
        · exact hsa ▸ le_refl _
        · exact le_of_lt ((List.pairwise_cons.mp hs).1 s hstl)
      · simp [hua] at hfind
        obtain ⟨hmem, hle, hmin⟩ := ih (List.pairwise_cons.mp hs).2 hfind
        refine ⟨List.mem_cons_of_mem _ hmem, hle, ?_⟩
        intro s hsmem hus
        rcases List.mem_cons.mp hsmem with hsa | hstl
        · exact absurd (hsa ▸ hus) hua
        · exact hmin s hstl hus

/-- When find? fails, every tier capacity is below the usage. -/
theorem find_none_all_lt {l : List (Nat × ℚ)} {u : Nat}
    (h : l.find? (fun x => decide (u ≤ x.1)) = none) :
    ∀ s ∈ l, s.1 < u := by
  intro s hs
  have := List.find?_eq_none.mp h s hs
  simpa using this

/-- Membership of the element returned by getLast?. -/
theorem mem_of_getLast?_eq_some {α : Type} {l : List α} {m : α}
    (h : l.getLast? = some m) : m ∈ l := by
  obtain ⟨hne, hm⟩ := List.mem_getLast?_eq_getLast (show m ∈ l.getLast? by simp [h])
  exact hm ▸ List.getLast_mem hne

/-- On a strictly ascending tier list, the last tier has the greatest
capacity. -/
theorem getLast?_max_of_sorted :
    ∀ {l : List (Nat × ℚ)}, l.Pairwise (fun a b => a.1 < b.1) →
      ∀ {m : Nat × ℚ}, l.getLast? = some m → ∀ s ∈ l, s.1 ≤ m.1 := by
  intro l hs m hlast s hsmem
  induction l with
  | nil => simp at hlast
  | cons a tl ih =>
      cases tl with
      | nil =>
          simp at hlast
          rcases List.mem_singleton.mp hsmem with rfl
          exact hlast ▸ le_refl _
      | cons b tl2 =>
          rw [List.getLast?_cons_cons] at hlast
          rcases List.mem_cons.mp hsmem with hsa | hstl
          · have hmem : m ∈ b :: tl2 := mem_of_getLast?_eq_some hlast
            have halt : a.1 < m.1 := (List.pairwise_cons.mp hs).1 m hmem
            exact hsa ▸ le_of_lt halt
          · exact ih (List.pairwise_cons.mp hs).2 hlast hstl

/-- Generic correctness of the tier resolver over a sorted non-empty
tier table. -/
theorem resolve_spec (tables : PricingTables) (plan : ZapierPlan) (usage : Nat)
    (hs : (tables.tiersFor plan).Pairwise (fun a b => a.1 < b.1))
    (hne : tables.tiersFor plan ≠ []) :
    ∃ r : PricingResult,
      ZapierPricing.resolve tables plan usage = some r ∧
      (r.tier_tasks, r.tier_price) ∈ tables.tiersFor plan ∧
      ((∃ t ∈ tables.tiersFor plan, usage ≤ t.1) →
        usage ≤ r.tier_tasks ∧
        ∀ t ∈ tables.tiersFor plan, usage ≤ t.1 → r.tier_tasks ≤ t.1) ∧
      ((∀ t ∈ tables.tiersFor plan, t.1 < usage) →
        ∀ t ∈ tables.tiersFor plan, t.1 ≤ r.tier_tasks) := by
  cases hfind : (tables.tiersFor plan).find? (fun t => decide (usage ≤ t.1)) with
  | some t =>
      obtain ⟨hmem, hle, hmin⟩ := find_min_of_sorted hs hfind
      refine ⟨{ plan := plan, tier_tasks := t.1, tier_price := t.2,
                cost_per_task := if 0 < t.1 then t.2 / (t.1 : ℚ) else 0,
                actual_usage := usage }, ?_, ?_, ?_, ?_⟩
      · simp [ZapierPricing.resolve, hfind]
      · simpa [Prod.mk.eta] using hmem
      · intro _
        exact ⟨hle, hmin⟩
      · intro hall
        exact absurd hle (not_le.mpr (hall t hmem))
  | none =>
      cases hlast : (tables.tiersFor plan).getLast? with
      | none => exact absurd (List.getLast?_eq_none_iff.mp hlast) hne
      | some m =>
          have hmem : m ∈ tables.tiersFor plan := mem_of_getLast?_eq_some hlast
          refine ⟨{ plan := plan, tier_tasks := m.1, tier_price := m.2,
                    cost_per_task := if 0 < m.1 then m.2 / (m.1 : ℚ) else 0,
                    actual_usage := usage }, ?_, ?_, ?_, ?_⟩
          · simp [ZapierPricing.resolve, hfind, hlast]
          · simpa [Prod.mk.eta] using hmem
          · intro ⟨t, htmem, htle⟩
            exact absurd htle (not_le.mpr (find_none_all_lt hfind t htmem))
          · intro _
            exact getLast?_max_of_sorted hs hlast

/-- C1: for every plan and every actual_usage value, the pricing
resolver returns the smallest tier whose task capacity is at least
actual_usage, and when actual_usage exceeds every capacity it returns
the largest tier of that plan without error. -/
theorem c1_pricing_resolver_min_tier (plan : ZapierPlan) (usage : Nat) :
    ∃ r : PricingResult,
      ZapierPricing.resolve ZapierPricing.tables plan usage = some r ∧
      (r.tier_tasks, r.tier_price) ∈ ZapierPricing.tables.tiersFor plan ∧
      ((∃ t ∈ ZapierPricing.tables.tiersFor plan, usage ≤ t.1) →
        usage ≤ r.tier_tasks ∧
        ∀ t ∈ ZapierPricing.tables.tiersFor plan, usage ≤ t.1 → r.tier_tasks ≤ t.1) ∧
      ((∀ t ∈ ZapierPricing.tables.tiersFor plan, t.1 < usage) →
        ∀ t ∈ ZapierPricing.tables.tiersFor plan, t.1 ≤ r.tier_tasks) := by
  apply resolve_spec
  · cases plan <;> decide
  · cases plan <;> decide

/-- Witness for C1 at concrete inputs: usage 3000000 on the Team plan
exceeds every capacity and resolves to the 2000000-task tier, and usage
3000 on the Professional plan resolves to the 5000-task tier. -/
theorem c1_pricing_resolver_min_tier_witness :
    (∃ r : PricingResult,
      ZapierPricing.resolve ZapierPricing.tables .team 3000000 = some r ∧
      r.tier_tasks = 2000000) ∧
    (∃ r : PricingResult,
      ZapierPricing.resolve ZapierPricing.tables .professional 3000 = some r ∧
      r.tier_tasks = 5000) := by
  constructor
  · obtain ⟨r, hres, hmem, _, hmax⟩ :=
      c1_pricing_resolver_min_tier .team 3000000
    have hall : ∀ t ∈ ZapierPricing.tables.tiersFor .team, t.1 < 3000000 := by decide
    have hub := hmax hall (2000000, 3999) (by decide)
    have hcap : ∀ t ∈ ZapierPricing.tables.tiersFor .team, t.1 ≤ 2000000 := by decide
    exact ⟨r, hres, le_antisymm (hcap _ hmem) hub⟩
  · obtain ⟨r, hres, hmem, hmin, _⟩ :=
      c1_pricing_resolver_min_tier .professional 3000
    have hx : ∃ t ∈ ZapierPricing.tables.tiersFor .professional, 3000 ≤ t.1 := by decide
    obtain ⟨hle, hminall⟩ := hmin hx
    have hub := hminall (5000, 89) (by decide) (by decide)
    have hlb : ∀ t ∈ ZapierPricing.tables.tiersFor .professional,
        3000 ≤ t.1 → 5000 ≤ t.1 := by decide
    exact ⟨r, hres, le_antisymm hub (hlb _ hmem hle)⟩

-- ============================================================
-- Canonical data model (lib.rs structs)
-- ============================================================

/-- lib.rs TripleStores. -/
structure TripleStores where
  copied_from : Option Nat
  created_by : Option Nat
  polling_interval_override : Nat
  block_and_release_limit_override : Nat
  spread_tasks : Nat
deriving DecidableEq

/-- Default TripleStores (all serde defaults). -/
def TripleStores.default : TripleStores :=
  { copied_from := none, created_by := none, polling_interval_override := 0,
    block_and_release_limit_override := 0, spread_tasks := 0 }

/-- lib.rs Node: one step of a workflow. -/
structure Node where
  id : Nat
  account_id : Nat
  customuser_id : Nat
  paused : Bool
  type_of : String
  params : Json
  meta : Json
  triple_stores : TripleStores
  folders : Option Json
  parent_id : Option Nat
  root_id : Option Nat
  action : String
  selected_api : String
  title : Option String
  authentication_id : Option Nat
  created_at : String
  last_changed : String

/-- lib.rs UsageStats. -/
structure UsageStats where
  total_runs : Nat
  success_count : Nat
  error_count : Nat
  error_rate : F
  has_task_history : Bool
  most_common_error : Option String
  error_trend : Option String
  max_streak : Nat
  last_run : Option String
deriving DecidableEq

/-- lib.rs Zap.  The nodes HashMap is modelled as an association list;
the list order stands for the iteration order of the map at run time,
which is not a function of the input bytes. -/
structure Zap where
  id : Nat
  title : String
  status : String
  nodes : List (String × Node)
  usage_stats : Option UsageStats

/-- lib.rs Metadata. -/
structure Metadata where
  version : String
deriving DecidableEq

/-- lib.rs ZapFile. -/
structure ZapFile where
  metadata : Metadata
  zaps : List Zap

-- ============================================================
-- Deserializers (the custom serde impls of lib.rs)
-- ============================================================

/-- The byte-sum surrogate used for non-numeric step identifiers. -/
def byteSum (s : String) : Nat :=
  (s.toUTF8.toList.map (fun b => b.toNat)).sum

/-- Model of str::parse::<u64>: optional leading plus sign, decimal
digits, value below 2^64. -/
def parseU64 (s : String) : Option Nat :=
  let core := if s.startsWith "+" then s.drop 1 else s
  (core.toNat?).bind (fun n => if n < 2 ^ 64 then some n else none)

/-- Identifier resolution of Node::deserialize: a number, a numeric
string, the byte-sum surrogate for other strings, 0 otherwise. -/
def nodeIdOfJson (value : Json) : Nat :=
  match value.get "id" with
  | some idv =>
      match idv.asU64 with
      | some n => n
      | none =>
          match idv.asStr with
          | some s =>
              match parseU64 s with
              | some n => n
              | none => byteSum s
          | none => 0
  | none => 0

/-- Field parser for an Option<u64> field with serde default: missing
or null gives none, a u64 number gives some, anything else fails. -/
def parseOptU64Field (j : Option Json) : Option (Option Nat) :=
  match j with
  | none => some none
  | some .null => some none
  | some v =>
      match v.asU64 with
      | some n => some (some n)
      | none => none

/-- Field parser for a u64 field with serde default. -/
def parseU64Field (j : Option Json) : Option Nat :=
  match j with
  | none => some 0
  | some v => v.asU64

/-- Derived serde deserializer of TripleStores: requires a map, applies
field defaults, fails on ill-typed fields. -/
def tripleStoresFromJson (j : Json) : Option TripleStores :=
  match j.asObj with
  | none => none
  | some _ => do
      let cf ← parseOptU64Field (j.get "copied_from")
      let cb ← parseOptU64Field (j.get "created_by")
      let pio ← parseU64Field (j.get "polling_interval_override")
      let barl ← parseU64Field (j.get "block_and_release_limit_override")
      let st ← parseU64Field (j.get "spread_tasks")
      some { copied_from := cf, created_by := cb, polling_interval_override := pio,
             block_and_release_limit_override := barl, spread_tasks := st }

/-- Node::deserialize of lib.rs.  The source impl inspects an untyped
tree and never fails: every field falls back to a default.  (The
Result wrapper of the source is always Ok, which this totality makes
explicit.) -/
def Node.deserialize (value : Json) : Node :=
  { id := nodeIdOfJson value
    account_id := ((value.get "account_id").bind Json.asU64).getD 0
    customuser_id := ((value.get "customuser_id").bind Json.asU64).getD 0
    paused := ((value.get "paused").bind Json.asBool).getD false
    type_of := (((value.get "type_of").orElse (fun _ => value.get "type")).bind Json.asStr).getD "write"
    params := (value.get "params").getD .null
    meta := (value.get "meta").getD .null
    triple_stores := (tripleStoresFromJson ((value.get "triple_stores").getD .null)).getD TripleStores.default
    folders := value.get "folders"
    parent_id := (value.get "parent_id").bind Json.asU64
    root_id := (value.get "root_id").bind Json.asU64
    action := ((value.get "action").bind Json.asStr).getD ""
    selected_api := (((value.get "selected_api").orElse (fun _ => value.get "app")).bind Json.asStr).getD ""
    title := (value.get "title").bind Json.asStr
    authentication_id := (value.get "authentication_id").bind Json.asU64
    created_at := ((value.get "created_at").bind Json.asStr).getD ""
    last_changed := ((value.get "last_changed").bind Json.asStr).getD "" }

/-- Zap::deserialize of lib.rs: requires id, title-or-name and
status-or-state; accepts steps/actions arrays (modern) or a nodes map
(legacy); an absent or ill-shaped steps value leaves the node map
empty.  (Error strings are kept descriptive but not byte-identical to
the source messages.) -/
def Zap.deserialize (value : Json) : Except String Zap := do
  let id ←
    match (value.get "id").bind Json.asU64 with
    | some n => pure n
    | none => throw "missing field id"
  let title ←
    match ((value.get "title").orElse (fun _ => value.get "name")).bind Json.asStr with
    | some s => pure s
    | none => throw "missing field title or name"
  let status ←
    match ((value.get "status").orElse (fun _ => value.get "state")).bind Json.asStr with
    | some s => pure s
    | none => throw "missing field status or state"
  let nodes :=
    match (value.get "steps").orElse (fun _ => value.get "actions") with
    | some stepsValue =>
        match stepsValue.asArr with
        | some stepsArray =>
            (stepsArray.enum).map (fun p => (toString p.1, Node.deserialize p.2))
        | none => []
    | none =>
        match value.get "nodes" with
        | some nodesValue =>
            match nodesValue.asObj with
            | some nodesObj => nodesObj.map (fun p => (p.1, Node.deserialize p.2))
            | none => []
        | none => []
  pure { id := id, title := title, status := status, nodes := nodes, usage_stats := none }

/-- Derived deserializer of Metadata (version has a serde default). -/
def metadataFromJson : Option Json → Except String Metadata
  | none => .ok { version := "" }
  | some v =>
      match v.asObj with
      | none => .error "invalid metadata"
      | some _ =>
          match v.get "version" with
          | none => .ok { version := "" }
          | some vv =>
              match vv.asStr with
              | some s => .ok { version := s }
              | none => .error "invalid metadata version"

/-- Derived deserializer of ZapFile: metadata is defaulted, zaps is a
required array whose elements parse through Zap::deserialize. -/
def ZapFile.deserialize (v : Json) : Except String ZapFile := do
  match v.asObj with
  | none => throw "invalid zapfile root"
  | some _ =>
      let md ← metadataFromJson (v.get "metadata")
      match v.get "zaps" with
      | none => throw "missing field zaps"
      | some zv =>
          match zv.asArr with
          | none => throw "zaps must be an array"
          | some items => do
              let zaps ← items.mapM Zap.deserialize
              pure { metadata := md, zaps := zaps }

-- ============================================================
-- App-name normalization and the telemetry aggregator
-- ============================================================

/-- lib.rs parse_app_name: strip the version suffix after the at sign,
strip CLIAPI / API suffixes, insert spaces at lower-to-upper
boundaries. -/
def parse_app_name (selected_api : String) : String :=
  let base_name := String.mk (selected_api.data.takeWhile (fun c => c ≠ '@'))
  let name_without_suffix := trimEndMatches (trimEndMatches base_name "CLIAPI") "API"
  let folded := name_without_suffix.data.foldl
    (fun (acc : List Char × Bool) c =>
      let result := acc.1
      let prev_was_lower := acc.2
      let result2 :=
        if c.isUpper && prev_was_lower && !result.isEmpty then result ++ [' ', c]
        else result ++ [c]
      (result2, c.isLower))
    ([], false)
  String.mk folded.1

/-- One CSV blob as handed over by the csv reader: the header row and
the data rows. -/
structure CsvFile where
  headers : List String
  records : List (List String)

/-- lib.rs ExecutionRecord. -/
structure ExecutionRecord where
  is_error : Bool
  error_message : Option String
deriving DecidableEq

/-- Base statistics inserted for a freshly seen zap id. -/
def freshStats : UsageStats :=
  { total_runs := 0, success_count := 0, error_count := 0, error_rate := .fin 0,
    has_task_history := true, most_common_error := none, error_trend := none,
    max_streak := 0, last_run := none }

/-- State threaded through the row scan of parse_csv_files. -/
structure CsvScanState where
  hist : List (Nat × UsageStats)
  execs : List (Nat × List ExecutionRecord)
  times : List (Nat × List String)

/-- Row processing of parse_csv_files for one task-history CSV. -/
def csvProcessRow (zapIdCol statusCol : Nat) (errIdx tsIdx : Option Nat)
    (st : CsvScanState) (row : List String) : CsvScanState :=
  match (row.get? zapIdCol).bind parseU64 with
  | none => st
  | some zap_id =>
      match row.get? statusCol with
      | none => st
      | some status_str =>
          let status := strLower status_str
          let is_error := status == "error" || status == "failed" || status == "failure"
          let error_message :=
            match errIdx with
            | some i =>
                if is_error then (row.get? i).bind (fun s => if s.isEmpty then none else some s)
                else none
            | none => none
          let times2 :=
            match tsIdx with
            | some i =>
                match row.get? i with
                | some ts =>
                    if ts.isEmpty then st.times
                    else alUpdate st.times zap_id (fun l => l ++ [ts]) []
                | none => st.times
            | none => st.times
          let execs2 := alUpdate st.execs zap_id
            (fun l => l ++ [{ is_error := is_error, error_message := error_message }]) []
          let hist2 := alUpdate st.hist zap_id
            (fun s =>
              { s with
                total_runs := s.total_runs + 1
                success_count := s.success_count + (if status == "success" then 1 else 0)
                error_count := s.error_count + (if is_error then 1 else 0) })
            freshStats
          { hist := hist2, execs := execs2, times := times2 }

/-- File processing of parse_csv_files: header detection and the row
scan for one CSV blob. -/
def csvProcessFile (st : CsvScanState) (csv : CsvFile) : CsvScanState :=
  let has_zap_id := csv.headers.any (fun h => strLower h == "zap_id")
  let has_status := csv.headers.any (fun h => strLower h == "status")
  if has_zap_id && has_status then
    match csv.headers.findIdx? (fun h => strLower h == "zap_id"),
          csv.headers.findIdx? (fun h => strLower h == "status") with
    | some zapIdCol, some statusCol =>
        let errIdx := csv.headers.findIdx?
          (fun h => strLower h == "error_message" || strLower h == "error")
        let tsIdx := csv.headers.findIdx? (fun h => strLower h == "timestamp")
        csv.records.foldl (csvProcessRow zapIdCol statusCol errIdx tsIdx) st
    | _, _ => st
  else st

/-- Longest streak of consecutive error rows, in file order. -/
def maxErrorStreak (execs : List ExecutionRecord) : Nat :=
  (execs.foldl
    (fun (acc : Nat × Nat) e =>
      if e.is_error then
        let cur := acc.1 + 1
        (cur, max acc.2 cur)
      else (0, acc.2))
    (0, 0)).2

/-- Most common error message: tally in first-occurrence order, keep
the last maximal tally as Iterator::max_by_key does.  (The source
iterates a HashMap here, so ties are resolved by map iteration
order.) -/
def mostCommonError (execs : List ExecutionRecord) : Option String :=
  let counts := execs.foldl
    (fun (acc : List (String × Nat)) e =>
      match e.error_message with
      | some msg =>
          if acc.any (fun p => p.1 == msg) then
            acc.map (fun p => if p.1 == msg then (p.1, p.2 + 1) else p)
          else acc ++ [(msg, 1)]
      | none => acc)
    []
  (counts.foldl
    (fun (acc : Option (String × Nat)) p =>
      match acc with
      | none => some p
      | some m => if p.2 ≥ m.2 then some p else some m)
    none).map (·.1)

/-- Post-pass of parse_csv_files over one aggregated entry: error rate,
last run, trend, streak, most common error. -/
def csvFinalizeEntry (execsMap : List (Nat × List ExecutionRecord))
    (timesMap : List (Nat × List String)) (e : Nat × UsageStats) : Nat × UsageStats :=
  let zap_id := e.1
  let stats := e.2
  let stats :=
    if 0 < stats.total_runs then
      { stats with error_rate :=
          guard_nan (F.mul (F.div (.fin stats.error_count) (.fin stats.total_runs)) (.fin 100)) }
    else stats
  let stats :=
    match alGet timesMap zap_id with
    | some timestamps =>
        if timestamps.isEmpty then stats
        else { stats with last_run := listMaxStr timestamps }
    | none => stats
  match alGet execsMap zap_id with
  | some execs =>
      if execs.isEmpty then (zap_id, stats)
      else
        let mid_point := execs.length / 2
        let stats :=
          if 0 < mid_point then
            let first_half_errors := (execs.take mid_point).countP (fun e => e.is_error)
            let second_half_errors := (execs.drop mid_point).countP (fun e => e.is_error)
            let first_half_rate := F.div (.fin first_half_errors) (.fin mid_point)
            let second_half_rate :=
              F.div (.fin second_half_errors) (.fin (execs.length - mid_point))
            let trend :=
              if F.lt (F.mul first_half_rate (.fin (12/10))) second_half_rate then "increasing"
              else if F.lt second_half_rate (F.mul first_half_rate (.fin (8/10))) then "decreasing"
              else "stable"
            { stats with error_trend := some trend }
          else stats
        let stats := { stats with max_streak := maxErrorStreak execs }
        let stats :=
          match mostCommonError execs with
          | some msg => { stats with most_common_error := some msg }
          | none => stats
        (zap_id, stats)
  | none => (zap_id, stats)

/-- lib.rs parse_csv_files: aggregate task-history CSVs into per-zap
usage statistics. -/
def parse_csv_files (csv_contents : List CsvFile) : List (Nat × UsageStats) :=
  let st := csv_contents.foldl csvProcessFile { hist := [], execs := [], times := [] }
  st.hist.map (csvFinalizeEntry st.execs st.times)

/-- lib.rs attach_usage_stats. -/
def attach_usage_stats (zapfile : ZapFile) (task_history_map : List (Nat × UsageStats)) : ZapFile :=
  { zapfile with zaps := zapfile.zaps.map (fun z =>
      match alGet task_history_map z.id with
      | some stats => { z with usage_stats := some stats }
      | none => z) }

-- ============================================================
-- Fallback constants (lib.rs)
-- ============================================================

/-- lib.rs FALLBACK_MONTHLY_RUNS: 500 assumed monthly runs. -/
def FALLBACK_MONTHLY_RUNS : F := .fin 500

/-- lib.rs POLLING_REDUCTION_RATE: 20 percent. -/
def POLLING_REDUCTION_RATE : F := .fin (1/5)

/-- lib.rs LATE_FILTER_FALLBACK_RATE: 30 percent. -/
def LATE_FILTER_FALLBACK_RATE : F := .fin (3/10)

-- ============================================================
-- Efficiency flags and detectors (lib.rs)
-- ============================================================

/-- lib.rs EfficiencyFlag (pre-v1 schema).  Display-only string fields
are omitted; every analysed field is kept. -/
structure EfficiencyFlag where
  zap_id : Nat
  zap_title : String
  flag_type : String
  severity : String
  most_common_error : Option String
  error_trend : Option String
  max_streak : Option Nat
  estimated_monthly_savings : F
  estimated_annual_savings : F
  is_fallback : Bool
  confidence : String

/-- Values of the node map of a zap, in iteration order. -/
def zapNodeValues (z : Zap) : List Node := z.nodes.map (·.2)

/-- lib.rs detect_error_loop. -/
def detect_error_loop (zap : Zap) (price_per_task : F) : Option EfficiencyFlag :=
  match zap.usage_stats with
  | some stats =>
      if 0 < stats.total_runs ∧ F.lt (.fin 10) stats.error_rate then
        let steps_per_run := zap.nodes.length
        let wasted_tasks := calculate_task_volume stats.error_count steps_per_run
        let monthly_savings := guard_nan (F.mul (.fin wasted_tasks) price_per_task)
        some
          { zap_id := zap.id
            zap_title := zap.title
            flag_type := "error_loop"
            severity := if F.lt (.fin 50) stats.error_rate then "high" else "medium"
            most_common_error := stats.most_common_error
            error_trend := stats.error_trend
            max_streak := some stats.max_streak
            estimated_monthly_savings := monthly_savings
            estimated_annual_savings := F.mul monthly_savings (.fin 12)
            is_fallback := false
            confidence := "high" }
      else none
  | none => none

/-- Trigger lookup of the detectors: the first node of the iteration
order without a parent reference. -/
def findTriggerNode (nodes : List Node) : Option Node :=
  nodes.find? (fun node => node.parent_id.isNone)

/-- Chain walk of detect_late_filter_placement: repeatedly look up the
node whose parent is the current node.  The fuel bounds the walk; the
node count is enough fuel whenever node identifiers are distinct, which
is also the condition under which the source loop terminates. -/
def chainFrom (nodes : List Node) : Nat → Nat → List Node
  | _, 0 => []
  | current, fuel + 1 =>
      match nodes.find? (fun n => n.parent_id == some current) with
      | some n => n :: chainFrom nodes n.id fuel
      | none => []

/-- Ordered step list of a zap, reconstructed from parent links;
none when no trigger node exists. -/
def orderedNodesOf (z : Zap) : Option (List Node) :=
  (findTriggerNode (zapNodeValues z)).map
    (fun trigger => trigger :: chainFrom (zapNodeValues z) trigger.id (zapNodeValues z).length)

/-- Filter-step test of detect_late_filter_placement. -/
def isFilterNode (n : Node) : Bool :=
  strContainsSub (strLower n.action) "filter" ||
  (match n.title with
   | some t => strContainsSub (strLower t) "filter"
   | none => false)

/-- Number of write-type steps strictly between the trigger and
position index. -/
def actionsBeforeIdx (ordered : List Node) (index : Nat) : Nat :=
  ((ordered.take index).drop 1).countP (fun n => n.type_of == "write")

/-- First position of the ordered chain holding a filter step beyond
position 1 with at least one write step before it, together with the
count of those write steps. -/
def lateFilterHit (ordered : List Node) : Option (Nat × Nat) :=
  (ordered.enum.find? (fun p =>
      isFilterNode p.2 && decide (1 < p.1) && decide (0 < actionsBeforeIdx ordered p.1))).map
    (fun p => (p.1, actionsBeforeIdx ordered p.1))

/-- lib.rs detect_late_filter_placement. -/
def detect_late_filter_placement (zap : Zap) (price_per_task : F) : Option EfficiencyFlag :=
  match orderedNodesOf zap with
  | none => none
  | some ordered_nodes =>
      match lateFilterHit ordered_nodes with
      | none => none
      | some (_, actions_before_filter) =>
          let savingsFallback : F × Bool :=
            match zap.usage_stats with
            | some stats =>
                if 0 < stats.total_runs then
                  let filter_rejection_rate :=
                    if stats.success_count < stats.total_runs then
                      F.div (.fin ((stats.total_runs - stats.success_count : Nat) : ℚ))
                        (.fin stats.total_runs)
                    else LATE_FILTER_FALLBACK_RATE
                  let wasted_tasks_per_month :=
                    guard_nan (F.mul (F.mul (.fin stats.total_runs) (.fin actions_before_filter))
                      filter_rejection_rate)
                  (guard_nan (F.mul wasted_tasks_per_month price_per_task), false)
                else (.fin 0, true)
            | none =>
                let wasted_tasks :=
                  guard_nan (F.mul (F.mul FALLBACK_MONTHLY_RUNS (.fin actions_before_filter))
                    LATE_FILTER_FALLBACK_RATE)
                (guard_nan (F.mul wasted_tasks price_per_task), true)
          let monthly_savings := savingsFallback.1
          let is_fallback := savingsFallback.2
          let confidence :=
            if !is_fallback && F.lt (.fin 0) monthly_savings then "high"
            else if monthly_savings = .fin 0 then "low"
            else "medium"
          some
            { zap_id := zap.id
              zap_title := zap.title
              flag_type := "late_filter_placement"
              severity := "high"
              most_common_error := none
              error_trend := none
              max_streak := none
              estimated_monthly_savings := monthly_savings
              estimated_annual_savings := F.mul monthly_savings (.fin 12)
              is_fallback := is_fallback
              confidence := confidence }

/-- lib.rs polling_apps table. -/
def polling_apps : List String :=
  ["RSS", "WordPress", "GoogleSheets", "GoogleForms", "Airtable", "Excel",
   "Dropbox", "GoogleDrive", "OneDrive", "MySQL", "PostgreSQL", "SQLServer",
   "MongoDB"]

/-- lib.rs detect_polling_trigger.  Note: all three savings branches of
the source pass true as has_execution_data (lines 1413, 1426 and 1440),
so the confidence and fallback-flag computation below sees true even
when no usage statistics exist; this is translated verbatim. -/
def detect_polling_trigger (zap : Zap) (price_per_task : F) : Option EfficiencyFlag :=
  match (zapNodeValues zap).find?
      (fun node => node.parent_id.isNone && node.type_of == "read") with
  | none => none
  | some trigger_node =>
      let app_name := parse_app_name trigger_node.selected_api
      let is_polling := polling_apps.any (fun polling_app => strContainsSub app_name polling_app)
      if is_polling then
        let savingsData : F × Bool :=
          match zap.usage_stats with
          | some stats =>
              if 0 < stats.total_runs then
                let steps_per_run := zap.nodes.length
                let total_tasks := calculate_task_volume stats.total_runs steps_per_run
                (guard_nan (F.mul (F.mul (.fin total_tasks) price_per_task)
                  POLLING_REDUCTION_RATE), true)
              else
                let steps_per_run := zap.nodes.length
                let estimated_tasks := F.mul FALLBACK_MONTHLY_RUNS (.fin steps_per_run)
                (guard_nan (F.mul (F.mul estimated_tasks price_per_task)
                  POLLING_REDUCTION_RATE), true)
          | none =>
              let steps_per_run := zap.nodes.length
              let estimated_tasks := F.mul FALLBACK_MONTHLY_RUNS (.fin steps_per_run)
              (guard_nan (F.mul (F.mul estimated_tasks price_per_task)
                POLLING_REDUCTION_RATE), true)
        let monthly_savings := savingsData.1
        let has_execution_data := savingsData.2
        let confidence := if has_execution_data then "medium" else "low"
        some
          { zap_id := zap.id
            zap_title := zap.title
            flag_type := "polling_trigger"
            severity := "medium"
            most_common_error := none
            error_trend := none
            max_streak := none
            estimated_monthly_savings := monthly_savings
            estimated_annual_savings := F.mul monthly_savings (.fin 12)
            is_fallback := !has_execution_data
            confidence := confidence }
      else none

/-- lib.rs detect_efficiency_flags: the dispatcher, in source order. -/
def detect_efficiency_flags (zapfile : ZapFile) (price_per_task : F) : List EfficiencyFlag :=
  (zapfile.zaps.map (fun zap =>
    ([detect_polling_trigger zap price_per_task,
      detect_late_filter_placement zap price_per_task,
      detect_error_loop zap price_per_task].filterMap id))).flatten

/-- lib.rs calculate_efficiency_score. -/
def calculate_efficiency_score (flags : List EfficiencyFlag) : Nat :=
  let score : ℤ := flags.foldl
    (fun s f =>
      if f.flag_type == "polling_trigger" && f.severity == "medium" then s - 10
      else if f.flag_type == "late_filter_placement" && f.severity == "high" then s - 25
      else if f.flag_type == "error_loop" && f.severity == "high" then s - 30
      else if f.flag_type == "error_loop" && f.severity == "medium" then s - 20
      else s)
    100
  (max score 0).toNat

/-- lib.rs calculate_estimated_savings. -/
def calculate_estimated_savings (flags : List EfficiencyFlag) : F :=
  F.sumList (flags.map (·.estimated_monthly_savings))

-- ============================================================
-- Stable sorting (the model of Vec::sort_by, which is stable)
-- ============================================================

/-- Insert before the first element the comparator does not place
after, keeping earlier-inserted equals in front. -/
def ordInsert {α : Type} (le : α → α → Bool) (a : α) : List α → List α
  | [] => [a]
  | b :: l => if le a b then a :: b :: l else b :: ordInsert le a l

/-- Stable insertion sort: the unique stable sort for a total preorder
comparator, hence the result of Vec::sort_by for such comparators. -/
def insSort {α : Type} (le : α → α → Bool) : List α → List α
  | [] => []
  | b :: l => ordInsert le b (insSort le l)

/-- lib.rs AppInfo. -/
structure AppInfo where
  name : String
  raw_api : String
  count : Nat
deriving DecidableEq

/-- Comparator of extract_app_inventory: count descending, then name
ascending. -/
def appInfoLe (a b : AppInfo) : Bool :=
  decide (b.count < a.count) || (b.count == a.count && decide (a.name ≤ b.name))

/-- lib.rs extract_app_inventory.  The HashMap tally is modelled in
first-occurrence order; the final sort makes the order canonical up to
ties. -/
def extract_app_inventory (zapfile : ZapFile) : List AppInfo :=
  let counts := zapfile.zaps.foldl
    (fun (acc : List (String × Nat)) zap =>
      zap.nodes.foldl
        (fun acc p =>
          if acc.any (fun e => e.1 == p.2.selected_api) then
            acc.map (fun e => if e.1 == p.2.selected_api then (e.1, e.2 + 1) else e)
          else acc ++ [(p.2.selected_api, 1)])
        acc)
    []
  insSort appInfoLe
    (counts.map (fun e => { name := parse_app_name e.1, raw_api := e.1, count := e.2 }))

-- ============================================================
-- v1.0.0 schema module (audit_schema_v1.rs)
-- ============================================================

/-- audit_schema_v1.rs ConfidenceLevel. -/
inductive ConfidenceLevel where
  | high
  | medium
  | low
deriving DecidableEq

/-- audit_schema_v1.rs Severity. -/
inductive Severity where
  | low
  | medium
  | high
deriving DecidableEq

/-- audit_schema_v1.rs FlagCode. -/
inductive FlagCode where
  | formatterChain
  | interleavedTransformations
  | taskStepCostInflation
  | lateFilter
  | zombieZap
  | planUnderutilization
deriving DecidableEq

/-- audit_schema_v1.rs WarningCode. -/
inductive WarningCode where
  | incompleteData
  | unusualPattern
  | highComplexity
deriving DecidableEq

/-- audit_schema_v1.rs Warning. -/
structure Warning where
  code : WarningCode
  message : String
deriving DecidableEq

/-- audit_schema_v1.rs FlagImpact. -/
structure FlagImpact where
  estimated_monthly_savings_usd : F
  estimated_annual_savings_usd : F
deriving DecidableEq

/-- audit_schema_v1.rs FlagImplementation. -/
structure FlagImplementation where
  estimated_effort_hours : F
deriving DecidableEq

/-- audit_schema_v1.rs EfficiencyFlag (the v1 schema type; the old
lib.rs flag keeps the plain name).  The meta JSON blob only repackages
strings already present on the old flag and is omitted. -/
structure EfficiencyFlagV1 where
  code : FlagCode
  severity : Severity
  confidence : ConfidenceLevel
  impact : FlagImpact
  implementation : FlagImplementation
deriving DecidableEq

/-- audit_schema_v1.rs ZapMetrics. -/
structure ZapMetrics where
  steps : Nat
  monthly_tasks : Nat
  task_step_ratio : F
deriving DecidableEq

/-- audit_schema_v1.rs ZapFinding. -/
structure ZapFinding where
  zap_id : String
  zap_name : String
  status : String
  is_zombie : Bool
  metrics : ZapMetrics
  confidence : ConfidenceLevel
  flags : List EfficiencyFlagV1
  warnings : List Warning
deriving DecidableEq

/-- audit_schema_v1.rs RankedOpportunity. -/
structure RankedOpportunity where
  zap_id : String
  flag_code : FlagCode
  estimated_monthly_savings_usd : F
  confidence : ConfidenceLevel
  rank : Nat
deriving DecidableEq

/-- audit_schema_v1.rs ConfidenceOverview. -/
structure ConfidenceOverview where
  high : Nat
  medium : Nat
  low : Nat
deriving DecidableEq

/-- audit_schema_v1.rs PricingAssumptions. -/
structure PricingAssumptions where
  plan_tier : String
  task_price_usd : F
deriving DecidableEq

/-- audit_schema_v1.rs InputSources. -/
structure InputSources where
  zap_json : Bool
  task_csv : Bool
deriving DecidableEq

/-- audit_schema_v1.rs AuditMetadata; generated_at is the timestamp
string supplied by the clock at assembly time. -/
structure AuditMetadata where
  generated_at : String
  input_sources : InputSources
  pricing_assumptions : PricingAssumptions
  confidence_overview : ConfidenceOverview
deriving DecidableEq

/-- audit_schema_v1.rs GlobalMetrics. -/
structure GlobalMetrics where
  total_zaps : Nat
  active_zaps : Nat
  total_monthly_tasks : Nat
  estimated_monthly_waste_tasks : Nat
  estimated_monthly_waste_usd : F
  estimated_annual_waste_usd : F
  zombie_zap_count : Nat
  high_severity_flag_count : Nat
deriving DecidableEq

/-- audit_schema_v1.rs PlanCapacity. -/
structure PlanCapacity where
  min : Nat
  max : Nat
deriving DecidableEq

/-- audit_schema_v1.rs PremiumFeatures. -/
structure PremiumFeatures where
  paths : Bool
  filters : Bool
  webhooks : Bool
  custom_logic : Bool
deriving DecidableEq

/-- audit_schema_v1.rs PlanAnalysis. -/
structure PlanAnalysis where
  current_plan : String
  monthly_task_usage : Nat
  plan_task_capacity : PlanCapacity
  usage_percentile : F
  premium_features_detected : PremiumFeatures
  downgrade_safe : Bool
deriving DecidableEq

/-- audit_schema_v1.rs AuditResultV1, the versioned report root. -/
structure AuditResultV1 where
  schema_version : String
  audit_metadata : AuditMetadata
  global_metrics : GlobalMetrics
  per_zap_findings : List ZapFinding
  opportunities_ranked : List RankedOpportunity
  plan_analysis : PlanAnalysis
deriving DecidableEq

/-- AuditResultV1::new: stamp the schema version. -/
def AuditResultV1.new (audit_metadata : AuditMetadata) (global_metrics : GlobalMetrics)
    (per_zap_findings : List ZapFinding) (opportunities_ranked : List RankedOpportunity)
    (plan_analysis : PlanAnalysis) : AuditResultV1 :=
  { schema_version := "1.0.0", audit_metadata, global_metrics, per_zap_findings,
    opportunities_ranked, plan_analysis }

/-- Flag check of AuditResultV1::validate: NaN monthly savings, then
negative monthly savings. -/
def flagViolation (zap_id : String) (flag : EfficiencyFlagV1) : Option String :=
  if flag.impact.estimated_monthly_savings_usd.isNaN then
    some ("Zap " ++ zap_id ++ " has flag with NaN savings")
  else if F.lt flag.impact.estimated_monthly_savings_usd (.fin 0) then
    some ("Zap " ++ zap_id ++ " has negative savings")
  else none

/-- Per-finding check of AuditResultV1::validate. -/
def findingViolation (finding : ZapFinding) : Option String :=
  if finding.metrics.task_step_ratio.isNaN then
    some ("Zap " ++ finding.zap_id ++ " has NaN in task_step_ratio")
  else finding.flags.findSome? (flagViolation finding.zap_id)

/-- Per-opportunity check of AuditResultV1::validate. -/
def oppViolation (opp : RankedOpportunity) : Option String :=
  if opp.estimated_monthly_savings_usd.isNaN then some "Opportunity has NaN savings"
  else none

/-- audit_schema_v1.rs AuditResultV1::validate. -/
def AuditResultV1.validate (r : AuditResultV1) : Except String Unit :=
  if r.global_metrics.estimated_monthly_waste_usd.isNaN then
    .error "Global metrics contains NaN in monthly_waste_usd"
  else if r.global_metrics.estimated_annual_waste_usd.isNaN then
    .error "Global metrics contains NaN in annual_waste_usd"
  else
    match r.per_zap_findings.findSome? findingViolation with
    | some e => .error e
    | none =>
        match r.opportunities_ranked.findSome? oppViolation with
        | some e => .error e
        | none => .ok ()

/-- Steps 10 and 11 of analyze_zaps: the validation gate applied to the
assembled report before it leaves the engine; the report is returned
unchanged when the gate passes. -/
def analyzeFinalize (r : AuditResultV1) : Except String AuditResultV1 :=
  match r.validate with
  | .error e => .error ("Validation failed: " ++ e)
  | .ok _ => .ok r

-- ============================================================
-- v1.0.0 mapping helpers (lib.rs)
-- ============================================================

/-- lib.rs map_flag_code. -/
def map_flag_code (flag_type : String) : FlagCode :=
  if flag_type == "late_filter_placement" then .lateFilter
  else if flag_type == "polling_trigger" then .formatterChain
  else if flag_type == "error_loop" then .taskStepCostInflation
  else .taskStepCostInflation

/-- lib.rs map_confidence. -/
def map_confidence (confidence_str : String) : ConfidenceLevel :=
  if strLower confidence_str == "high" then .high
  else if strLower confidence_str == "medium" then .medium
  else if strLower confidence_str == "low" then .low
  else .medium

/-- lib.rs map_severity. -/
def map_severity (severity_str : String) : Severity :=
  if strLower severity_str == "high" then .high
  else if strLower severity_str == "medium" then .medium
  else if strLower severity_str == "low" then .low
  else .medium

/-- lib.rs convert_efficiency_flag. -/
def convert_efficiency_flag (old_flag : EfficiencyFlag) : EfficiencyFlagV1 :=
  { code := map_flag_code old_flag.flag_type
    severity := map_severity old_flag.severity
    confidence := map_confidence old_flag.confidence
    impact :=
      { estimated_monthly_savings_usd := old_flag.estimated_monthly_savings
        estimated_annual_savings_usd := old_flag.estimated_annual_savings }
    implementation :=
      { estimated_effort_hours :=
          if old_flag.flag_type == "error_loop" then .fin (1/2)
          else if old_flag.flag_type == "late_filter_placement" then .fin 1
          else if old_flag.flag_type == "polling_trigger" then .fin 2
          else .fin 1 } }

/-- lib.rs calculate_confidence_overview. -/
def calculate_confidence_overview (findings : List ZapFinding) : ConfidenceOverview :=
  findings.foldl
    (fun acc finding =>
      let acc :=
        match finding.confidence with
        | .high => { acc with high := acc.high + 1 }
        | .medium => { acc with medium := acc.medium + 1 }
        | .low => { acc with low := acc.low + 1 }
      finding.flags.foldl
        (fun acc flag =>
          match flag.confidence with
          | .high => { acc with high := acc.high + 1 }
          | .medium => { acc with medium := acc.medium + 1 }
          | .low => { acc with low := acc.low + 1 })
        acc)
    { high := 0, medium := 0, low := 0 }

/-- lib.rs detect_zombie_status. -/
def detect_zombie_status (status : String) (monthly_tasks : Nat) : Bool :=
  strLower status == "on" && monthly_tasks == 0

/-- Comparator of rank_opportunities: sort_by compares the second
savings against the first, so ascending order under it is descending
savings; an incomparable pair (NaN) counts as equal. -/
def rankLe (a b : RankedOpportunity) : Bool :=
  !(((F.pcmp b.estimated_monthly_savings_usd a.estimated_monthly_savings_usd).getD .eq) == .gt)

/-- Rank assignment of rank_opportunities: 1-based positions. -/
def assignRanks : Nat → List RankedOpportunity → List RankedOpportunity
  | _, [] => []
  | i, o :: rest => { o with rank := i } :: assignRanks (i + 1) rest

/-- lib.rs rank_opportunities: flatten all flags, stable-sort by
savings descending, truncate to 10, assign 1-based ranks. -/
def rank_opportunities (findings : List ZapFinding) : List RankedOpportunity :=
  let opportunities :=
    (findings.map (fun finding =>
      finding.flags.map (fun flag =>
        { zap_id := finding.zap_id
          flag_code := flag.code
          estimated_monthly_savings_usd := flag.impact.estimated_monthly_savings_usd
          confidence := flag.confidence
          rank := 0 }))).flatten
  assignRanks 1 ((insSort rankLe opportunities).take 10)

-- ============================================================
-- Cross-zap pattern detection (lib.rs)
-- ============================================================

/-- lib.rs PatternFinding. -/
structure PatternFinding where
  pattern_type : String
  pattern_name : String
  affected_zap_ids : List Nat
  affected_count : Nat
  median_chain_length : Option F
  total_waste_tasks : Nat
  total_waste_usd : F
  refactor_guidance : String
  severity : String

/-- Impact score of a pattern: affected count times waste USD. -/
def patternScore (p : PatternFinding) : F :=
  F.mul (.fin p.affected_count) p.total_waste_usd

/-- Comparator of the pattern sort (descending by score; the source
unwraps the partial comparison and would panic on NaN scores, which
cannot reach a comparison here with finite member savings). -/
def patternLe (a b : PatternFinding) : Bool :=
  !(((F.pcmp (patternScore b) (patternScore a)).getD .eq) == .gt)

/-- Fixed naming and guidance per pattern kind. -/
def patternText (flag_type : String) : String × String :=
  if flag_type == "polling_trigger" then
    ("Polling Trigger Overuse",
     "Switch to instant webhook triggers where possible to reduce polling overhead")
  else if flag_type == "late_filter_placement" then
    ("Late Filter Placement",
     "Move filters immediately after trigger to reduce wasted tasks on filtered items")
  else if flag_type == "error_loop" then
    ("Widespread Error Loops",
     "Review authentication, fix configuration issues, and add proper error handling")
  else (flag_type ++ " Pattern", "Review and optimize affected Zaps")

/-- The kinds present among the flags, in first-occurrence order (the
stand-in for the HashMap grouping order of the source). -/
def patternKeys (all_flags : List EfficiencyFlag) : List String :=
  all_flags.foldl
    (fun (acc : List String) f =>
      if acc.any (fun k => k == f.flag_type) then acc else acc ++ [f.flag_type])
    []

/-- The pattern built for one kind, when its group reaches the
threshold of 3 flags. -/
def patternOf (all_flags : List EfficiencyFlag) (flag_type : String) :
    Option PatternFinding :=
  let group := all_flags.filter (fun f => f.flag_type == flag_type)
  if 3 ≤ group.length then
    let text := patternText flag_type
    let total_waste_usd := F.sumList (group.map (·.estimated_monthly_savings))
    let total_waste_tasks := (F.div total_waste_usd (.fin (1/40))).toU32
    let severity :=
      if 8 ≤ group.length then "high"
      else if 5 ≤ group.length then "medium"
      else "low"
    some
      { pattern_type := flag_type
        pattern_name := text.1
        affected_zap_ids := group.map (·.zap_id)
        affected_count := group.length
        median_chain_length := none
        total_waste_tasks := total_waste_tasks
        total_waste_usd := total_waste_usd
        refactor_guidance := text.2
        severity := severity }
  else none

/-- lib.rs detect_cross_zap_patterns.  The HashMap grouping is modelled
in first-occurrence order of the kinds; the final sort makes the order
canonical up to score ties. -/
def detect_cross_zap_patterns (all_flags : List EfficiencyFlag) : List PatternFinding :=
  insSort patternLe ((patternKeys all_flags).filterMap (patternOf all_flags))

/-- lib.rs detect_premium_features. -/
def detect_premium_features (zapfile : ZapFile) : PremiumFeatures :=
  zapfile.zaps.foldl
    (fun feats zap =>
      zap.nodes.foldl
        (fun feats p =>
          let action_lower := strLower p.2.action
          let api_lower := strLower p.2.selected_api
          { paths := feats.paths || strContainsSub action_lower "path" ||
              strContainsSub api_lower "path"
            filters := feats.filters || strContainsSub action_lower "filter"
            webhooks := feats.webhooks || strContainsSub api_lower "webhook" ||
              strContainsSub action_lower "webhook"
            custom_logic := feats.custom_logic || strContainsSub api_lower "code" ||
              strContainsSub api_lower "python" || strContainsSub api_lower "javascript" })
        feats)
    { paths := false, filters := false, webhooks := false, custom_logic := false }

-- ============================================================
-- Entry-point result types (lib.rs)
-- ============================================================

/-- lib.rs AnalysisMode. -/
inductive AnalysisMode where
  | full
  | partial_
deriving DecidableEq

/-- lib.rs ParseResult. -/
structure ParseResult where
  success : Bool
  mode : AnalysisMode
  zap_count : Nat
  total_nodes : Nat
  message : String
  apps : List AppInfo
  efficiency_flags : List EfficiencyFlag
  efficiency_score : Nat
  estimated_savings : F
  estimated_annual_savings : F

/-- lib.rs ErrorResult. -/
structure ErrorResult where
  success : Bool
  message : String
deriving DecidableEq

/-- lib.rs ZapSummary. -/
structure ZapSummary where
  id : Nat
  title : String
  status : String
  step_count : Nat
  trigger_app : String
  last_run : Option String
  error_rate : Option F
  total_runs : Nat
deriving DecidableEq

/-- lib.rs ZapListResult. -/
structure ZapListResult where
  success : Bool
  message : String
  zaps : List ZapSummary
deriving DecidableEq

/-- lib.rs ScopeMetadata. -/
structure ScopeMetadata where
  total_zaps_in_account : Nat
  analyzed_count : Nat
  excluded_count : Nat
  analyzed_zap_summaries : List ZapSummary
  excluded_zap_summaries : List ZapSummary
deriving DecidableEq

/-- lib.rs SystemMetrics. -/
structure SystemMetrics where
  avg_steps_per_zap : F
  avg_tasks_per_run : F
  polling_trigger_count : Nat
  instant_trigger_count : Nat
  total_monthly_tasks : Nat
  formatter_usage_density : String
  fan_out_flows : Nat
deriving DecidableEq

/-- lib.rs BatchParseResult. -/
structure BatchParseResult where
  success : Bool
  message : String
  zap_count : Nat
  individual_results : List ParseResult
  total_nodes : Nat
  total_estimated_savings : F
  average_efficiency_score : F
  total_flags : Nat
  combined_apps : List AppInfo
  patterns : List PatternFinding
  scope_metadata : ScopeMetadata
  system_metrics : SystemMetrics

/-- Outcome of one entry-point invocation: a success payload, a
structured failure (the serialized ErrorResult or Err string of the
source), or a panic of the engine. -/
inductive EntryOut (α : Type) where
  | ok (value : α)
  | fail (err : ErrorResult)
  | panic

/-- Whether the outcome is a success payload. -/
def EntryOut.isOk {α : Type} : EntryOut α → Bool
  | .ok _ => true
  | _ => false

/-- Whether the outcome is a structured failure whose message starts
with the given text. -/
def EntryOut.failsWith {α : Type} (o : EntryOut α) (pre : String) : Bool :=
  match o with
  | .fail e => !e.success && seqStarts pre.data e.message.data
  | _ => false

-- ============================================================
-- Archive boundary model
-- ============================================================

/-- One entry of the uploaded ZIP archive, at the output boundary of
the zip / serde_json / csv libraries: the entry name, the JSON tree its
text parses to (if it parses) and the CSV table its text parses to (if
a header row is readable). -/
structure ArchiveEntry where
  name : String
  jsonTree : Option Json
  csvTable : Option CsvFile

/-- The uploaded archive: its entries in archive order. -/
structure Archive where
  files : List ArchiveEntry

/-- Candidate names of the export document in parse_zapier_export. -/
def ZAPFILE_CANDIDATES : List String := ["zapfile.json", "zaps.json", "config.json"]

/-- File scan of parse_zapier_export: first candidate match wins for
the zapfile, every .csv entry with readable content is collected (the
source checks the two conditions independently). -/
def scanExport (files : List ArchiveEntry) : Option ArchiveEntry × List CsvFile :=
  files.foldl
    (fun (acc : Option ArchiveEntry × List CsvFile) f =>
      let zf :=
        match acc.1 with
        | some z => some z
        | none =>
            if ZAPFILE_CANDIDATES.any (fun c => strEndsWith (strLower f.name) c) then some f
            else none
      let csvs :=
        if strEndsWith (strLower f.name) ".csv" then
          match f.csvTable with
          | some c => acc.2 ++ [c]
          | none => acc.2
        else acc.2
      (zf, csvs))
    (none, [])

/-- File scan of analyze_zaps: its loop tests !found_zapfile, so the
first entry named *zapfile.json is kept; other .csv entries are
collected in the else branch, as in the source. -/
def scanGuarded (files : List ArchiveEntry) : Option ArchiveEntry × List CsvFile :=
  files.foldl
    (fun (acc : Option ArchiveEntry × List CsvFile) f =>
      if strEndsWith (strLower f.name) "zapfile.json" then
        match acc.1 with
        | some z => (some z, acc.2)
        | none => (some f, acc.2)
      else if strEndsWith (strLower f.name) ".csv" then
        match f.csvTable with
        | some c => (acc.1, acc.2 ++ [c])
        | none => acc
      else acc)
    (none, [])

/-- File scan of parse_zap_list, parse_single_zap_audit and
parse_batch_audit: these loops carry no !found_zapfile guard, so the
content of every entry named *zapfile.json is appended to the document
string; the matched entries are kept in order.  .csv entries are
collected in the else branch, as in the source. -/
def scanAppend (files : List ArchiveEntry) : List ArchiveEntry × List CsvFile :=
  files.foldl
    (fun (acc : List ArchiveEntry × List CsvFile) f =>
      if strEndsWith (strLower f.name) "zapfile.json" then
        (acc.1 ++ [f], acc.2)
      else if strEndsWith (strLower f.name) ".csv" then
        match f.csvTable with
        | some c => (acc.1, acc.2 ++ [c])
        | none => acc
      else acc)
    ([], [])

/-- serde parse of the accumulated document string of an append-style
scan.  With one matched entry the string is that entry's text, so the
result is the entry's tree.  With several matches the source parses
the concatenation of the matched texts, which the per-entry parse
boundary does not determine; it is rendered as a parse failure, the
serde result whenever a complete first document is followed by further
nonempty content (in particular any concatenation of object
documents).  Concatenations that splice into one document (an empty
later entry, adjacent bare numbers) are outside this rendering; no
theorem of this development evaluates an archive with more than one
matched entry. -/
def zapfileTreeOf : List ArchiveEntry → Option Json
  | [e] => e.jsonTree
  | _ => none

/-- Plan-string parsing shared by the audit entry points. -/
def planOfString (plan_str : String) : ZapierPlan :=
  if strLower plan_str == "professional" then .professional
  else if strLower plan_str == "team" then .team
  else .professional

-- ============================================================
-- Entry point: parse_zapier_export (lib.rs)
-- ============================================================

/-- lib.rs parse_zapier_export: the only entry point that runs the
pricing-table invariant check; it aborts with the distinct
configuration error before touching the archive. -/
def parse_zapier_export (tables : PricingTables) (archive : Archive) : EntryOut ParseResult :=
  match ZapierPricing.validate_pricing_tiers tables with
  | .error err_msg =>
      .fail { success := false, message := "Pricing configuration error: " ++ err_msg }
  | .ok _ =>
      let scan := scanExport archive.files
      match scan.1 with
      | none =>
          .fail { success := false,
                  message := "No zapfile found in archive. Tried: zapfile.json, zaps.json, config.json" }
      | some zfEntry =>
          match zfEntry.jsonTree with
          | none => .fail { success := false, message := "Failed to parse zapfile.json" }
          | some doc =>
              match ZapFile.deserialize doc with
              | .error e =>
                  .fail { success := false, message := "Failed to parse zapfile.json: " ++ e }
              | .ok zapfile0 =>
                  let task_history_map := parse_csv_files scan.2
                  let has_task_history := !task_history_map.isEmpty
                  let mode := if has_task_history then AnalysisMode.full else AnalysisMode.partial_
                  let zapfile := attach_usage_stats zapfile0 task_history_map
                  let total_nodes := (zapfile.zaps.map (fun z => z.nodes.length)).sum
                  let apps := extract_app_inventory zapfile
                  match ZapierPricing.default_fallback tables with
                  | none => .panic
                  | some pricing =>
                      let price_per_task := F.fin pricing.cost_per_task
                      let efficiency_flags := detect_efficiency_flags zapfile price_per_task
                      let efficiency_score := calculate_efficiency_score efficiency_flags
                      let estimated_savings := calculate_estimated_savings efficiency_flags
                      let message :=
                        if mode == AnalysisMode.partial_ then
                          "Successfully parsed " ++ toString zapfile.zaps.length ++ " Zaps with "
                            ++ toString total_nodes
                            ++ " total steps (Partial mode: no task history data)"
                        else
                          "Successfully parsed " ++ toString zapfile.zaps.length ++ " Zaps with "
                            ++ toString total_nodes ++ " total steps"
                      .ok { success := true, mode := mode, zap_count := zapfile.zaps.length,
                            total_nodes := total_nodes, message := message, apps := apps,
                            efficiency_flags := efficiency_flags,
                            efficiency_score := efficiency_score,
                            estimated_savings := estimated_savings,
                            estimated_annual_savings := F.mul estimated_savings (.fin 12) }

-- ============================================================
-- Entry point: parse_zap_list (lib.rs)
-- ============================================================

/-- Summary construction shared with the batch entry point. -/
def build_zap_summary (zap : Zap) (task_history_map : List (Nat × UsageStats)) : ZapSummary :=
  let trigger_app :=
    match (zapNodeValues zap).find?
        (fun node => node.parent_id.isNone && node.type_of == "read") with
    | some node => parse_app_name node.selected_api
    | none => "Unknown"
  let lrt : Option String × Option F × Nat :=
    match alGet task_history_map zap.id with
    | some stats =>
        (stats.last_run,
         if 0 < stats.total_runs then some stats.error_rate else none,
         stats.total_runs)
    | none => (none, none, 0)
  { id := zap.id, title := zap.title, status := zap.status,
    step_count := zap.nodes.length, trigger_app := trigger_app,
    last_run := lrt.1, error_rate := lrt.2.1, total_runs := lrt.2.2 }

/-- lib.rs parse_zap_list: metadata preview, no heuristics, no pricing. -/
def parse_zap_list (archive : Archive) : EntryOut ZapListResult :=
  let scan := scanAppend archive.files
  match scan.1 with
  | [] => .fail { success := false, message := "zapfile.json not found in archive" }
  | ms =>
      match zapfileTreeOf ms with
      | none => .fail { success := false, message := "Failed to parse zapfile.json" }
      | some doc =>
          match ZapFile.deserialize doc with
          | .error e => .fail { success := false, message := "Failed to parse zapfile.json: " ++ e }
          | .ok zapfile0 =>
              let task_history_map := parse_csv_files scan.2
              let zapfile := attach_usage_stats zapfile0 task_history_map
              let zap_summaries := zapfile.zaps.map (fun zap =>
                let trigger_app :=
                  match (zapNodeValues zap).find?
                      (fun node => node.parent_id.isNone && node.type_of == "read") with
                  | some node => parse_app_name node.selected_api
                  | none => "Unknown"
                let lrt : Option String × Option F × Nat :=
                  match zap.usage_stats with
                  | some stats =>
                      (stats.last_run,
                       if 0 < stats.total_runs then some stats.error_rate else none,
                       stats.total_runs)
                  | none => (none, none, 0)
                { id := zap.id, title := zap.title, status := zap.status,
                  step_count := zap.nodes.length, trigger_app := trigger_app,
                  last_run := lrt.1, error_rate := lrt.2.1,
                  total_runs := lrt.2.2 : ZapSummary })
              .ok { success := true,
                    message := "Found " ++ toString zap_summaries.length ++ " Zaps",
                    zaps := zap_summaries }

-- ============================================================
-- Entry point: parse_single_zap_audit (lib.rs)
-- ============================================================

/-- lib.rs parse_single_zap_audit: resolves tier pricing up front
without any invariant check, then audits the selected zap. -/
def parse_single_zap_audit (tables : PricingTables) (archive : Archive) (zap_id : Nat)
    (plan_str : String) (actual_usage : Nat) : EntryOut ParseResult :=
  let plan := planOfString plan_str
  match ZapierPricing.resolve tables plan actual_usage with
  | none => .panic
  | some pricing =>
      let price_per_task := F.fin pricing.cost_per_task
      let scan := scanAppend archive.files
      match scan.1 with
      | [] => .fail { success := false, message := "zapfile.json not found in archive" }
      | ms =>
          match zapfileTreeOf ms with
          | none => .fail { success := false, message := "Failed to parse zapfile.json" }
          | some doc =>
              match ZapFile.deserialize doc with
              | .error e =>
                  .fail { success := false, message := "Failed to parse zapfile.json: " ++ e }
              | .ok zapfile0 =>
                  let zapfile1 :=
                    { zapfile0 with zaps := zapfile0.zaps.filter (fun z => z.id == zap_id) }
                  if zapfile1.zaps.isEmpty then
                    .fail { success := false,
                            message := "Zap with ID " ++ toString zap_id
                              ++ " not found in the export" }
                  else
                    let task_history_map := parse_csv_files scan.2
                    let zapfile := attach_usage_stats zapfile1 task_history_map
                    let total_nodes := (zapfile.zaps.map (fun z => z.nodes.length)).sum
                    let apps := extract_app_inventory zapfile
                    let efficiency_flags := detect_efficiency_flags zapfile price_per_task
                    let efficiency_score := calculate_efficiency_score efficiency_flags
                    let estimated_savings := calculate_estimated_savings efficiency_flags
                    let has_task_history :=
                      ((zapfile.zaps.head?.bind (fun z => z.usage_stats)).map
                        (fun s => s.has_task_history)).getD false
                    let mode := if has_task_history then AnalysisMode.full else AnalysisMode.partial_
                    let message := "Successfully audited Zap: "
                      ++ ((zapfile.zaps.head?.map (fun z => z.title)).getD "Unknown")
                    .ok { success := true, mode := mode, zap_count := zapfile.zaps.length,
                          total_nodes := total_nodes, message := message, apps := apps,
                          efficiency_flags := efficiency_flags,
                          efficiency_score := efficiency_score,
                          estimated_savings := estimated_savings,
                          estimated_annual_savings := F.mul estimated_savings (.fin 12) }

-- ============================================================
-- Entry point: parse_batch_audit (lib.rs)
-- ============================================================

/-- Tally update of the combined app inventory of the batch audit. -/
def alUpdateStr (m : List (String × Nat)) (k : String) (add : Nat) : List (String × Nat) :=
  if m.any (fun e => e.1 == k) then
    m.map (fun e => if e.1 == k then (e.1, e.2 + add) else e)
  else m ++ [(k, add)]

/-- Rounding of f32::round: half away from zero. -/
def qRoundHalfAway (q : ℚ) : ℤ :=
  if 0 ≤ q then (q + 1/2).floor else -((-q + 1/2).floor)

/-- Accumulator of the per-zap loop of parse_batch_audit. -/
structure BatchAcc where
  all_flags : List EfficiencyFlag
  individual_results : List ParseResult
  total_nodes : Nat
  total_savings : F
  total_score : Nat
  total_flags_count : Nat
  combined_app_counts : List (String × Nat)

/-- One iteration of the per-zap loop of parse_batch_audit. -/
def batchStep (zapfileAll : ZapFile) (task_history_map : List (Nat × UsageStats))
    (price_per_task : F) (acc : BatchAcc) (zap_id : Nat) : BatchAcc :=
  let single0 : ZapFile :=
    { metadata := zapfileAll.metadata,
      zaps := zapfileAll.zaps.filter (fun z => z.id == zap_id) }
  if single0.zaps.isEmpty then acc
  else
    let single := attach_usage_stats single0 task_history_map
    let zap_nodes := (single.zaps.map (fun z => z.nodes.length)).sum
    let apps := extract_app_inventory single
    let combined := apps.foldl
      (fun cc app => alUpdateStr cc app.raw_api app.count) acc.combined_app_counts
    let flags := detect_efficiency_flags single price_per_task
    let score := calculate_efficiency_score flags
    let savings := calculate_estimated_savings flags
    let has_task_history :=
      ((single.zaps.head?.bind (fun z => z.usage_stats)).map
        (fun s => s.has_task_history)).getD false
    let mode := if has_task_history then AnalysisMode.full else AnalysisMode.partial_
    let result : ParseResult :=
      { success := true, mode := mode, zap_count := 1, total_nodes := zap_nodes,
        message := "Audited: " ++ ((single.zaps.head?.map (fun z => z.title)).getD "Unknown"),
        apps := apps, efficiency_flags := flags, efficiency_score := score,
        estimated_savings := savings,
        estimated_annual_savings := F.mul savings (.fin 12) }
    { all_flags := acc.all_flags ++ flags
      individual_results := acc.individual_results ++ [result]
      total_nodes := acc.total_nodes + zap_nodes
      total_savings := F.add acc.total_savings savings
      total_score := acc.total_score + score
      total_flags_count := acc.total_flags_count + flags.length
      combined_app_counts := combined }

/-- lib.rs calculate_system_metrics.  The instant-trigger count is a
usize difference in the source; Nat subtraction models the in-range
case (duplicate selected ids could underflow it in the source). -/
def calculate_system_metrics (all_zaps : List Zap) (analyzed_ids : List Nat)
    (individual_results : List ParseResult) : SystemMetrics :=
  let analyzed_zaps := all_zaps.filter (fun z => analyzed_ids.contains z.id)
  let total_steps := (analyzed_zaps.map (fun z => z.nodes.length)).sum
  let avg_steps :=
    if !analyzed_zaps.isEmpty then F.div (.fin total_steps) (.fin analyzed_zaps.length)
    else .fin 0
  let polling_count := individual_results.countP
    (fun r => r.efficiency_flags.any (fun f => f.flag_type == "polling_trigger"))
  let instant_count := analyzed_zaps.length - polling_count
  { avg_steps_per_zap := avg_steps
    avg_tasks_per_run := .fin 0
    polling_trigger_count := polling_count
    instant_trigger_count := instant_count
    total_monthly_tasks := 0
    formatter_usage_density := "low"
    fan_out_flows := 0 }

/-- lib.rs parse_batch_audit: resolves tier pricing up front without
any invariant check, then audits each selected zap and aggregates. -/
def parse_batch_audit (tables : PricingTables) (archive : Archive) (zap_ids : List Nat)
    (plan_str : String) (actual_usage : Nat) : EntryOut BatchParseResult :=
  let plan := planOfString plan_str
  match ZapierPricing.resolve tables plan actual_usage with
  | none => .panic
  | some pricing =>
      let price_per_task := F.fin pricing.cost_per_task
      if zap_ids.isEmpty then
        .fail { success := false, message := "No Zap IDs provided" }
      else
        let scan := scanAppend archive.files
        match scan.1 with
        | [] => .fail { success := false, message := "zapfile.json not found in archive" }
        | ms =>
            match zapfileTreeOf ms with
            | none => .fail { success := false, message := "Failed to parse zapfile.json" }
            | some doc =>
                match ZapFile.deserialize doc with
                | .error e =>
                    .fail { success := false, message := "Failed to parse zapfile.json: " ++ e }
                | .ok zapfile =>
                    let task_history_map := parse_csv_files scan.2
                    let acc := zap_ids.foldl
                      (batchStep zapfile task_history_map price_per_task)
                      { all_flags := [], individual_results := [], total_nodes := 0,
                        total_savings := .fin 0, total_score := 0, total_flags_count := 0,
                        combined_app_counts := [] }
                    let average_score : F :=
                      if !acc.individual_results.isEmpty then
                        .fin (qRoundHalfAway
                          ((acc.total_score : ℚ) / (acc.individual_results.length : ℚ)))
                      else .fin 0
                    let combined_apps := acc.combined_app_counts.map
                      (fun e => { name := parse_app_name e.1, raw_api := e.1,
                                  count := e.2 : AppInfo })
                    let patterns := detect_cross_zap_patterns acc.all_flags
                    let analyzed_summaries := (zapfile.zaps.filter
                      (fun z => zap_ids.contains z.id)).map
                      (fun z => build_zap_summary z task_history_map)
                    let excluded_summaries := (zapfile.zaps.filter
                      (fun z => !zap_ids.contains z.id)).map
                      (fun z => build_zap_summary z task_history_map)
                    let scope_metadata : ScopeMetadata :=
                      { total_zaps_in_account := zapfile.zaps.length
                        analyzed_count := zap_ids.length
                        excluded_count := zapfile.zaps.length - zap_ids.length
                        analyzed_zap_summaries := analyzed_summaries
                        excluded_zap_summaries := excluded_summaries }
                    let system_metrics :=
                      calculate_system_metrics zapfile.zaps zap_ids acc.individual_results
                    .ok { success := true
                          message := "Successfully audited "
                            ++ toString acc.individual_results.length
                            ++ (if acc.individual_results.length == 1 then " Zap" else " Zaps")
                          zap_count := acc.individual_results.length
                          individual_results := acc.individual_results
                          total_nodes := acc.total_nodes
                          total_estimated_savings := acc.total_savings
                          average_efficiency_score := average_score
                          total_flags := acc.total_flags_count
                          combined_apps := combined_apps
                          patterns := patterns
                          scope_metadata := scope_metadata
                          system_metrics := system_metrics }

-- ============================================================
-- Entry point: analyze_zaps (lib.rs, v1.0.0 export)
-- ============================================================

/-- Debug rendering of the plan, as format! produces it. -/
def planDebug : ZapierPlan → String
  | .professional => "Professional"
  | .team => "Team"

/-- Monthly task volume of one zap in analyze_zaps. -/
def zapMonthlyTasks (zap : Zap) : Nat :=
  match zap.usage_stats with
  | some stats => calculate_task_volume stats.total_runs zap.nodes.length
  | none => 0

/-- Per-zap finding construction of analyze_zaps. -/
def buildZapFinding (has_csv : Bool) (old_flags : List EfficiencyFlag) (zap : Zap) :
    ZapFinding :=
  let steps := zap.nodes.length
  let monthly_tasks := zapMonthlyTasks zap
  { zap_id := toString zap.id
    zap_name := zap.title
    status := zap.status
    is_zombie := detect_zombie_status zap.status monthly_tasks
    metrics :=
      { steps := steps
        monthly_tasks := monthly_tasks
        task_step_ratio :=
          if 0 < steps then guard_nan (F.div (.fin monthly_tasks) (.fin steps))
          else .fin 0 }
    confidence := if has_csv then .high else .medium
    flags := (old_flags.filter (fun f => f.zap_id == zap.id)).map convert_efficiency_flag
    warnings := [] }

/-- lib.rs analyze_zaps: the v1.0.0 end-to-end analysis.  The selected
ids arrive already converted to strings (the JsValue conversion is the
wasm boundary); now is the timestamp the clock supplies at assembly
time.  No pricing-table invariant check appears in this function: tier
resolution runs directly. -/
def analyze_zaps (tables : PricingTables) (archive : Archive) (selected_ids : List String)
    (plan_str : String) (actual_usage : Nat) (now : String) : EntryOut AuditResultV1 :=
  let analyze_all := selected_ids.isEmpty
  let plan := planOfString plan_str
  match ZapierPricing.resolve tables plan actual_usage with
  | none => .panic
  | some pricing =>
      let price_per_task := F.fin pricing.cost_per_task
      let scan := scanGuarded archive.files
      match scan.1 with
      | none => .fail { success := false, message := "zapfile.json not found in archive" }
      | some zfEntry =>
          match zfEntry.jsonTree with
          | none => .fail { success := false, message := "Failed to parse zapfile" }
          | some doc =>
              match ZapFile.deserialize doc with
              | .error e =>
                  .fail { success := false, message := "Failed to parse zapfile: " ++ e }
              | .ok zapfile0 =>
                  let task_history_map := parse_csv_files scan.2
                  let has_csv := !task_history_map.isEmpty
                  let zapfile1 := attach_usage_stats zapfile0 task_history_map
                  let zapfile :=
                    if analyze_all then zapfile1
                    else
                      let kept := zapfile1.zaps.filter
                        (fun z => selected_ids.contains (toString z.id))
                      { zapfile1 with zaps := kept }
                  let old_flags := detect_efficiency_flags zapfile price_per_task
                  let findings := zapfile.zaps.map (buildZapFinding has_csv old_flags)
                  let global_active_count :=
                    zapfile.zaps.countP (fun z => strLower z.status == "on")
                  let global_zombie_count := zapfile.zaps.countP
                    (fun z => detect_zombie_status z.status (zapMonthlyTasks z))
                  let global_total_tasks := (zapfile.zaps.map zapMonthlyTasks).sum
                  let allV1Flags := (findings.map (fun f => f.flags)).flatten
                  let global_high_severity_count :=
                    allV1Flags.countP (fun f => decide (f.severity = Severity.high))
                  let global_waste_usd := F.sumList
                    (allV1Flags.map (fun f => f.impact.estimated_monthly_savings_usd))
                  let global_waste_tasks := (F.div global_waste_usd price_per_task).toU32
                  let confidence_overview := calculate_confidence_overview findings
                  let audit_metadata : AuditMetadata :=
                    { generated_at := now
                      input_sources := { zap_json := true, task_csv := has_csv }
                      pricing_assumptions :=
                        { plan_tier := planDebug plan, task_price_usd := price_per_task }
                      confidence_overview := confidence_overview }
                  let global_metrics : GlobalMetrics :=
                    { total_zaps := zapfile.zaps.length
                      active_zaps := global_active_count
                      total_monthly_tasks := global_total_tasks
                      estimated_monthly_waste_tasks := global_waste_tasks
                      estimated_monthly_waste_usd := global_waste_usd
                      estimated_annual_waste_usd := F.mul global_waste_usd (.fin 12)
                      zombie_zap_count := global_zombie_count
                      high_severity_flag_count := global_high_severity_count }
                  let opportunities := rank_opportunities findings
                  let premium_features := detect_premium_features zapfile
                  let usage_percentile :=
                    if 0 < pricing.tier_tasks then
                      guard_nan (F.div (.fin global_total_tasks) (.fin pricing.tier_tasks))
                    else .fin 0
                  let downgrade_safe :=
                    F.lt usage_percentile (.fin (7/10)) && !premium_features.paths
                  let plan_analysis : PlanAnalysis :=
                    { current_plan := planDebug plan
                      monthly_task_usage := global_total_tasks
                      plan_task_capacity := { min := pricing.tier_tasks, max := pricing.tier_tasks }
                      usage_percentile := usage_percentile
                      premium_features_detected := premium_features
                      downgrade_safe := downgrade_safe }
                  let result := AuditResultV1.new audit_metadata global_metrics findings
                    opportunities plan_analysis
                  match analyzeFinalize result with
                  | .error e => .fail { success := false, message := e }
                  | .ok r => .ok r

-- ============================================================
-- Test fixtures shared by the concrete instances below
-- ============================================================

/-- Node builder with the defaulted fields of the canonical model. -/
def mkNode (id : Nat) (parent : Option Nat) (ty : String) (api : String)
    (action : String) (title : Option String) : Node :=
  { id := id, account_id := 0, customuser_id := 0, paused := false, type_of := ty,
    params := .null, meta := .null, triple_stores := TripleStores.default,
    folders := none, parent_id := parent, root_id := none, action := action,
    selected_api := api, title := title, authentication_id := none,
    created_at := "", last_changed := "" }

-- ============================================================
-- C10: Step deserialization is total with safe defaults
-- ============================================================

/-- C10: Step (Node) deserialization is total: every JSON value,
including a non-object or an empty object, deserializes into a Step
without error, with missing fields replaced by defaults (identifier 0,
direction write, empty strings, absent parent), so a malformed
individual step never causes a parse failure of the workflow by
itself. -/
theorem c10_node_deserialize_total_defaults (j : Json) :
    ((Json.get j "id" = none → (Node.deserialize j).id = 0) ∧
     (Json.get j "type_of" = none → Json.get j "type" = none →
       (Node.deserialize j).type_of = "write") ∧
     (Json.get j "parent_id" = none → (Node.deserialize j).parent_id = none) ∧
     (Json.get j "action" = none → (Node.deserialize j).action = "") ∧
     (Json.get j "selected_api" = none → Json.get j "app" = none →
       (Node.deserialize j).selected_api = "") ∧
     (Json.get j "title" = none → (Node.deserialize j).title = none) ∧
     (Json.get j "created_at" = none → (Node.deserialize j).created_at = "")) ∧
    (∀ steps : List Json,
      ZapFile.deserialize (Json.obj [("zaps", Json.arr [Json.obj
        [("id", Json.num 7), ("title", Json.str "Z"), ("status", Json.str "on"),
         ("steps", Json.arr steps)]])]) =
        .ok { metadata := { version := "" },
              zaps := [{ id := 7, title := "Z", status := "on",
                         nodes := steps.enum.map
                           (fun p => (toString p.1, Node.deserialize p.2)),
                         usage_stats := none }] }) := by
  constructor
  · refine ⟨?_, ?_, ?_, ?_, ?_, ?_, ?_⟩
    · intro h; simp [Node.deserialize, nodeIdOfJson, h]
    · intro h h2; simp [Node.deserialize, h, h2, Option.orElse]
    · intro h; simp [Node.deserialize, h]
    · intro h; simp [Node.deserialize, h]
    · intro h h2; simp [Node.deserialize, h, h2, Option.orElse]
    · intro h; simp [Node.deserialize, h]
    · intro h; simp [Node.deserialize, h]
  · intro steps
    rfl

/-- Witness for C10 at concrete inputs: a numeric JSON value (not an
object) deserializes to the defaulted step, and a zap whose steps array
holds a null step and a string step still parses. -/
theorem c10_node_deserialize_total_defaults_witness :
    (Node.deserialize (Json.num 5)).id = 0 ∧
    (Node.deserialize (Json.num 5)).type_of = "write" ∧
    (Node.deserialize (Json.num 5)).parent_id = none ∧
    (Node.deserialize (Json.num 5)).action = "" ∧
    (Node.deserialize (Json.num 5)).selected_api = "" ∧
    ZapFile.deserialize (Json.obj [("zaps", Json.arr [Json.obj
        [("id", Json.num 7), ("title", Json.str "Z"), ("status", Json.str "on"),
         ("steps", Json.arr [Json.null, Json.str "broken"])]])]) =
      .ok { metadata := { version := "" },
            zaps := [{ id := 7, title := "Z", status := "on",
                       nodes := [("0", Node.deserialize Json.null),
                                 ("1", Node.deserialize (Json.str "broken"))],
                       usage_stats := none }] } := by
  obtain ⟨⟨h1, h2, h3, h4, h5, _, _⟩, h8⟩ :=
    c10_node_deserialize_total_defaults (Json.num 5)
  exact ⟨h1 rfl, h2 rfl rfl, h3 rfl, h4 rfl, h5 rfl rfl,
    h8 [Json.null, Json.str "broken"]⟩

-- ============================================================
-- C4: the error-loop detector
-- ============================================================

/-- C4: the error-loop detector fires exactly on usage stats with
total_runs above 0 and error_rate above 10; severity is high above a 50
percent error rate and medium otherwise, confidence is always high, and
the monthly savings equal error_count times step count times
cost-per-unit. -/
theorem c4_error_loop_detector (zap : Zap) (price : F) :
    ((detect_error_loop zap price).isSome = true ↔
      ∃ stats, zap.usage_stats = some stats ∧ 0 < stats.total_runs ∧
        F.lt (.fin 10) stats.error_rate = true) ∧
    (∀ stats flag, zap.usage_stats = some stats →
      detect_error_loop zap price = some flag →
      flag.confidence = "high" ∧
      flag.is_fallback = false ∧
      flag.severity = (if F.lt (.fin 50) stats.error_rate then "high" else "medium") ∧
      (∀ q : ℚ, price = .fin q →
        flag.estimated_monthly_savings =
          .fin (((stats.error_count * zap.nodes.length : Nat) : ℚ) * q))) := by
  cases husage : zap.usage_stats with
  | none =>
      constructor
      · simp [detect_error_loop, husage]
      · intro stats flag h
        simp [husage] at h
  | some stats =>
      by_cases hcond : 0 < stats.total_runs ∧ F.lt (.fin 10) stats.error_rate
      · constructor
        · simp only [detect_error_loop, husage, if_pos hcond]
          simp only [Option.isSome_some, true_iff]
          exact ⟨stats, rfl, hcond.1, hcond.2⟩
        · intro stats' flag hs hdet
          injection hs with hs'
          subst hs'
          simp only [detect_error_loop, husage, if_pos hcond, Option.some.injEq] at hdet
          subst hdet
          refine ⟨rfl, rfl, rfl, ?_⟩
          intro q hq
          subst hq
          simp [guard_nan, F.mul, F.isNaN, F.isInfinite, calculate_task_volume]
      · constructor
        · simp only [detect_error_loop, husage, if_neg hcond, Option.isSome_none,
            Bool.false_eq_true, false_iff]
          rintro ⟨stats', hs, h1, h2⟩
          injection hs with hs'
          subst hs'
          exact hcond ⟨h1, h2⟩
        · intro stats' flag hs hdet
          simp only [detect_error_loop, husage, if_neg hcond] at hdet
          cases hdet

/-- Error-loop fixture: the spec scenario with 20 runs, 12 errors (60
percent error rate) and two steps. -/
def c4zap : Zap :=
  { id := 3, title := "E", status := "on",
    nodes := [("0", mkNode 30 none "read" "GmailCLIAPI@1.0.0" "" none),
              ("1", mkNode 31 (some 30) "write" "SlackCLIAPI@1.0.0" "" none)],
    usage_stats := some
      { total_runs := 20, success_count := 8, error_count := 12,
        error_rate := .fin 60, has_task_history := true, most_common_error := none,
        error_trend := none, max_streak := 0, last_run := none } }

/-- Witness for C4: the 60-percent-error scenario fires with severity
high, confidence high, and savings 12 errors times 2 steps times 0.1
USD per task. -/
theorem c4_error_loop_detector_witness :
    (detect_error_loop c4zap (.fin (1/10))).isSome = true ∧
    ∀ flag, detect_error_loop c4zap (.fin (1/10)) = some flag →
      flag.confidence = "high" ∧ flag.severity = "high" ∧
      flag.estimated_monthly_savings = .fin (12/5) := by
  obtain ⟨hiff, hprop⟩ := c4_error_loop_detector c4zap (.fin (1/10))
  constructor
  · exact hiff.mpr ⟨_, rfl, by decide, by decide⟩
  · intro flag hdet
    obtain ⟨hc, _, hsev, hsav⟩ := hprop _ flag rfl hdet
    have hlt : F.lt (.fin 50) (.fin 60) = true := by decide
    refine ⟨hc, ?_, ?_⟩
    · simpa [hlt] using hsev
    · have hs := hsav (1/10) rfl
      rw [hs]
      norm_num [c4zap]

-- ============================================================
-- C6: polling-trigger confidence and fallback flag (code bug)
-- ============================================================

/-- Polling-trigger fixture: an RSS trigger and one action, with no
usage statistics at all. -/
def c6zap : Zap :=
  { id := 1, title := "P", status := "on",
    nodes := [("0", mkNode 10 none "read" "RSSCLIAPI@1.0.0" "" none),
              ("1", mkNode 11 (some 10) "write" "GmailCLIAPI@1.0.0" "" none)],
    usage_stats := none }

/-- C6 (code bug evaluation): on a polling-trigger workflow without any
usage statistics the source still reports confidence medium and a false
fallback flag, because every branch of the savings computation passes
true as has_execution_data; savings do use the 500-run fallback (500
runs times 2 steps times the 2000-tier unit cost times the 20 percent
reduction = 4.9 USD). -/
theorem c6_polling_trigger_confidence_bug :
    (detect_polling_trigger c6zap (.fin (49/2000))).map
        (fun f => (f.confidence, f.is_fallback, f.estimated_monthly_savings)) =
      some ("medium", false, .fin (49/10)) := by
  have h : detect_polling_trigger c6zap (.fin (49/2000)) =
      some { zap_id := 1, zap_title := "P", flag_type := "polling_trigger",
             severity := "medium", most_common_error := none, error_trend := none,
             max_streak := none,
             estimated_monthly_savings := guard_nan (F.mul (F.mul
               (F.mul FALLBACK_MONTHLY_RUNS (.fin ((2 : Nat) : ℚ))) (.fin (49/2000)))
               POLLING_REDUCTION_RATE),
             estimated_annual_savings := F.mul (guard_nan (F.mul (F.mul
               (F.mul FALLBACK_MONTHLY_RUNS (.fin ((2 : Nat) : ℚ))) (.fin (49/2000)))
               POLLING_REDUCTION_RATE)) (.fin 12),
             is_fallback := false, confidence := "medium" } := rfl
  rw [h]
  simp only [Option.map_some', FALLBACK_MONTHLY_RUNS, POLLING_REDUCTION_RATE,
    guard_nan, F.mul, F.isNaN, F.isInfinite, Bool.or_self, Bool.false_or,
    if_neg (Bool.false_ne_true), Option.some.injEq, Prod.mk.injEq, F.fin.injEq]
  norm_num

-- ============================================================
-- C5: the late-filter-placement detector
-- ============================================================

/-- C5 (amended): when the late-filter detector fires on a workflow
whose usage stats show runs, the fallback flag is false and the savings
formula uses the rejection rate (total_runs - success_count) /
total_runs when success_count is below total_runs, and the fixed 30
percent fallback rate when the stats show no rejections (success_count
at or above total_runs); confidence is derived from the sign of the
savings. -/
theorem c5_late_filter_rate (zap : Zap) (price : F) (q : ℚ) (stats : UsageStats)
    (flag : EfficiencyFlag)
    (hprice : price = .fin q) (hstats : zap.usage_stats = some stats)
    (hruns : 0 < stats.total_runs)
    (hdet : detect_late_filter_placement zap price = some flag) :
    ∃ ordered index actions, orderedNodesOf zap = some ordered ∧
      lateFilterHit ordered = some (index, actions) ∧
      flag.is_fallback = false ∧
      (stats.success_count < stats.total_runs →
        flag.estimated_monthly_savings =
          .fin ((stats.total_runs : ℚ) * (actions : ℚ) *
            (((stats.total_runs - stats.success_count : Nat) : ℚ) / (stats.total_runs : ℚ)) * q)) ∧
      (¬ stats.success_count < stats.total_runs →
        flag.estimated_monthly_savings =
          .fin ((stats.total_runs : ℚ) * (actions : ℚ) * (3/10) * q)) ∧
      (∀ S : ℚ, flag.estimated_monthly_savings = .fin S →
        flag.confidence = (if 0 < S then "high" else if S = 0 then "low" else "medium")) := by
  subst hprice
  cases horder : orderedNodesOf zap with
  | none => simp [detect_late_filter_placement, horder] at hdet
  | some ordered =>
      cases hhit : lateFilterHit ordered with
      | none => simp [detect_late_filter_placement, horder, hhit] at hdet
      | some hit =>
          obtain ⟨index, actions⟩ := hit
          refine ⟨ordered, index, actions, rfl, hhit, ?_⟩
          have ht0 : ((stats.total_runs : ℚ)) ≠ 0 :=
            Nat.cast_ne_zero.mpr (Nat.pos_iff_ne_zero.mp hruns)
          simp only [detect_late_filter_placement, horder, hhit, hstats,
            if_pos hruns] at hdet
          by_cases hsc : stats.success_count < stats.total_runs
          · simp only [if_pos hsc] at hdet
            simp only [F.div, if_neg ht0, guard_nan, F.mul, F.isNaN, F.isInfinite,
              Bool.false_or, if_neg (Bool.false_ne_true), Option.some.injEq] at hdet
            subst hdet
            refine ⟨rfl, fun _ => rfl, fun h => absurd hsc h, ?_⟩
            intro S hS
            simp only at hS
            injection hS with hS'
            subst hS'
            by_cases hpos : 0 < (stats.total_runs : ℚ) * (actions : ℚ) *
                (((stats.total_runs - stats.success_count : Nat) : ℚ) /
                  (stats.total_runs : ℚ)) * q
            · simp [F.lt, hpos]
            · by_cases hz : (stats.total_runs : ℚ) * (actions : ℚ) *
                  (((stats.total_runs - stats.success_count : Nat) : ℚ) /
                    (stats.total_runs : ℚ)) * q = 0
              · simp [F.lt, hpos, hz]
              · simp [F.lt, hpos, hz]
          · simp only [if_neg hsc] at hdet
            simp only [LATE_FILTER_FALLBACK_RATE, guard_nan, F.mul, F.isNaN, F.isInfinite,
              Bool.false_or, if_neg (Bool.false_ne_true), Option.some.injEq] at hdet
            subst hdet
            refine ⟨rfl, fun h => absurd h hsc, fun _ => rfl, ?_⟩
            intro S hS
            simp only at hS
            injection hS with hS'
            subst hS'
            by_cases hpos : 0 < (stats.total_runs : ℚ) * (actions : ℚ) * (3/10) * q
            · simp [F.lt, hpos]
            · by_cases hz : (stats.total_runs : ℚ) * (actions : ℚ) * (3/10) * q = 0
              · simp [F.lt, hpos, hz]
              · simp [F.lt, hpos, hz]

/-- Late-filter fixture stats: 100 runs, 70 successes. -/
def c5statsA : UsageStats :=
  { total_runs := 100, success_count := 70, error_count := 30,
    error_rate := .fin 30, has_task_history := true, most_common_error := none,
    error_trend := none, max_streak := 0, last_run := none }

/-- Late-filter fixture: trigger, two write steps, then a filter. -/
def c5zapA : Zap :=
  { id := 5, title := "L", status := "on",
    nodes := [("0", mkNode 1 none "read" "ShopifyCLIAPI@1.0.0" "" none),
              ("1", mkNode 2 (some 1) "write" "GmailCLIAPI@1.0.0" "Send Email" none),
              ("2", mkNode 3 (some 2) "write" "SlackCLIAPI@1.0.0" "Send Message" none),
              ("3", mkNode 4 (some 3) "write" "FilterCLIAPI@1.0.0" "Filter" none)],
    usage_stats := some c5statsA }

/-- Witness for C5: the spec scenario (steps trigger, write, write,
filter; 100 runs, 70 successes) yields a finding with two actions
before the filter, rejection rate 0.30, confidence high, and savings
100 runs times 2 actions times 0.30 times the 2000-tier unit cost. -/
theorem c5_late_filter_rate_witness :
    (detect_late_filter_placement c5zapA (.fin (49/2000))).isSome = true ∧
    ∀ flag, detect_late_filter_placement c5zapA (.fin (49/2000)) = some flag →
      flag.confidence = "high" ∧ flag.is_fallback = false ∧
      flag.estimated_monthly_savings = .fin (147/100) := by
  constructor
  · rfl
  · intro flag hdet
    obtain ⟨ordered, index, actions, hord, hhit, hfb, hlt, _, hconf⟩ :=
      c5_late_filter_rate c5zapA (.fin (49/2000)) (49/2000) c5statsA flag rfl rfl
        (by decide) hdet
    have he : orderedNodesOf c5zapA =
        some [mkNode 1 none "read" "ShopifyCLIAPI@1.0.0" "" none,
              mkNode 2 (some 1) "write" "GmailCLIAPI@1.0.0" "Send Email" none,
              mkNode 3 (some 2) "write" "SlackCLIAPI@1.0.0" "Send Message" none,
              mkNode 4 (some 3) "write" "FilterCLIAPI@1.0.0" "Filter" none] := rfl
    rw [he] at hord
    injection hord with hord2
    subst hord2
    have hhit2 : (some (3, 2) : Option (Nat × Nat)) = some (index, actions) := by
      rw [← hhit]
      rfl
    injection hhit2 with hp
    simp only [Prod.mk.injEq] at hp
    obtain ⟨hi, ha⟩ := hp
    subst ha
    have hsav := hlt (by decide)
    have hq : ((c5statsA.total_runs : ℚ) * ((2 : Nat) : ℚ) *
        (((c5statsA.total_runs - c5statsA.success_count : Nat) : ℚ) /
          (c5statsA.total_runs : ℚ)) * (49/2000)) = 147/100 := by
      norm_num [c5statsA]
    rw [hq] at hsav
    have hcf := hconf (147/100) hsav
    rw [if_pos (by norm_num : (0:ℚ) < 147/100)] at hcf
    exact ⟨hcf, hfb, hsav⟩

/-- Late-filter counterexample stats: 100 runs, all successful. -/
def c5statsB : UsageStats :=
  { total_runs := 100, success_count := 100, error_count := 0,
    error_rate := .fin 0, has_task_history := true, most_common_error := none,
    error_trend := none, max_streak := 0, last_run := none }

/-- Late-filter counterexample zap: same chain, fully successful runs. -/
def c5zapB : Zap :=
  { id := 5, title := "L", status := "on",
    nodes := [("0", mkNode 1 none "read" "ShopifyCLIAPI@1.0.0" "" none),
              ("1", mkNode 2 (some 1) "write" "GmailCLIAPI@1.0.0" "Send Email" none),
              ("2", mkNode 3 (some 2) "write" "SlackCLIAPI@1.0.0" "Send Message" none),
              ("3", mkNode 4 (some 3) "write" "FilterCLIAPI@1.0.0" "Filter" none)],
    usage_stats := some c5statsB }

/-- Counterexample for C5 as stated: with usage stats showing 100 runs
and 100 successes the detector computes savings with the fixed 30
percent fallback rate (yielding 1.50 USD at 0.025 USD per task), even
though usage data is present; the rate (total_runs - success_count) /
total_runs claimed by the spec is 0 and would give zero savings. -/
theorem c5_late_filter_rate_counterexample :
    (detect_late_filter_placement c5zapB (.fin (1/40))).map
        (fun f => f.estimated_monthly_savings) = some (.fin (3/2)) ∧
    ((c5statsB.total_runs : ℚ) * ((2 : Nat) : ℚ) *
      (((c5statsB.total_runs - c5statsB.success_count : Nat) : ℚ) /
        (c5statsB.total_runs : ℚ)) * (1/40)) = 0 ∧
    (3/2 : ℚ) ≠ 0 := by
  refine ⟨?_, by norm_num [c5statsB], by norm_num⟩
  have h : (detect_late_filter_placement c5zapB (.fin (1/40))).map
      (fun f => f.estimated_monthly_savings) =
      some (guard_nan (F.mul (guard_nan (F.mul (F.mul (.fin ((100 : Nat) : ℚ))
        (.fin ((2 : Nat) : ℚ))) LATE_FILTER_FALLBACK_RATE)) (.fin (1/40)))) := rfl
  rw [h]
  simp only [LATE_FILTER_FALLBACK_RATE, guard_nan, F.mul, F.isNaN, F.isInfinite,
    Bool.or_self, Bool.false_or, if_neg (Bool.false_ne_true), Option.some.injEq,
    F.fin.injEq]
  norm_num

-- ============================================================
-- C2: pricing-table invariant checking at the entry points
-- ============================================================

/-- A misconfigured pricing table: the Professional tiers are not
ascending, so the invariant check rejects it, yet resolution still
finds a tier. -/
def c2badTables : PricingTables :=
  { professional := [(100, 1999/100), (50, 39)], team := ZapierPricing.TEAM }

/-- Minimal archive: one zapfile with a single stepless zap. -/
def c2archive : Archive :=
  { files := [{ name := "export/zapfile.json",
                jsonTree := some (Json.obj [("zaps", Json.arr [Json.obj
                  [("id", Json.num 7), ("title", Json.str "A"),
                   ("status", Json.str "off"), ("steps", Json.arr [])]])]),
                csvTable := none }] }

/-- C2 (amended): only the full-account entry point runs the
pricing-table invariant check (non-empty tables, strictly ascending
task limits across adjacent tiers): parse_zapier_export aborts with
the distinct configuration error before any resolution or archive
work whenever the check fails, while the v1 analyze function, the
single-workflow audit and the batch audit resolve pricing without the
check and proceed to a successful analysis on a misconfigured table. -/
theorem c2_pricing_validation_amended :
    (∀ (tables : PricingTables) (archive : Archive) (e : String),
      ZapierPricing.validate_pricing_tiers tables = .error e →
      parse_zapier_export tables archive =
        .fail { success := false, message := "Pricing configuration error: " ++ e }) ∧
    ZapierPricing.validate_pricing_tiers c2badTables =
      .error "CRITICAL: Professional pricing tiers not sorted! 50 <= 100 at index 1" ∧
    (analyze_zaps c2badTables c2archive [] "professional" 2000 "t0").isOk = true ∧
    (parse_single_zap_audit c2badTables c2archive 7 "professional" 2000).isOk = true ∧
    (parse_batch_audit c2badTables c2archive [7] "professional" 2000).isOk = true := by
  refine ⟨?_, rfl, rfl, rfl, rfl⟩
  intro tables archive e h
  simp only [parse_zapier_export, h]

/-- Witness for C2 (amended) at the concrete misconfigured table: the
full-account entry point returns the distinct configuration failure. -/
theorem c2_pricing_validation_amended_witness :
    parse_zapier_export c2badTables c2archive =
      .fail { success := false,
              message := "Pricing configuration error: CRITICAL: Professional pricing tiers not sorted! 50 <= 100 at index 1" } := by
  exact c2_pricing_validation_amended.1 c2badTables c2archive _
    c2_pricing_validation_amended.2.1

/-- Counterexample for C2 as stated: on a pricing table that violates
the invariant, the v1 analyze entry point does not abort with a
configuration error; it completes the analysis and returns a report. -/
theorem c2_pricing_validation_counterexample :
    (∃ e, ZapierPricing.validate_pricing_tiers c2badTables = .error e) ∧
    (analyze_zaps c2badTables c2archive [] "professional" 2000 "t0").isOk = true := by
  exact ⟨⟨_, rfl⟩, rfl⟩

-- ============================================================
-- C3: the output validation gate
-- ============================================================

/-- findSome? succeeds exactly when some element produces a value. -/
theorem findSome?_isSome_eq_any {α β : Type} (f : α → Option β) :
    ∀ l : List α, (l.findSome? f).isSome = l.any (fun a => (f a).isSome) := by
  intro l
  induction l with
  | nil => rfl
  | cons a t ih => rw [List.findSome?_cons]; cases h : f a <;> simp [h, ih]

/-- The flag check fires exactly on NaN or negative monthly savings. -/
theorem flagViolation_isSome (z : String) (fl : EfficiencyFlagV1) :
    (flagViolation z fl).isSome =
      (fl.impact.estimated_monthly_savings_usd.isNaN ||
       F.lt fl.impact.estimated_monthly_savings_usd (.fin 0)) := by
  unfold flagViolation
  by_cases h1 : fl.impact.estimated_monthly_savings_usd.isNaN = true
  · simp [h1]
  · simp only [Bool.not_eq_true] at h1
    by_cases h2 : F.lt fl.impact.estimated_monthly_savings_usd (.fin 0) = true
    · simp [h1, h2]
    · simp only [Bool.not_eq_true] at h2
      simp [h1, h2]

/-- The finding check fires exactly on a NaN ratio or a flag violation. -/
theorem findingViolation_isSome (f : ZapFinding) :
    (findingViolation f).isSome =
      (f.metrics.task_step_ratio.isNaN ||
       f.flags.any (fun fl =>
         fl.impact.estimated_monthly_savings_usd.isNaN ||
         F.lt fl.impact.estimated_monthly_savings_usd (.fin 0))) := by
  unfold findingViolation
  by_cases h1 : f.metrics.task_step_ratio.isNaN = true
  · simp [h1]
  · simp only [Bool.not_eq_true] at h1
    simp [h1, findSome?_isSome_eq_any, flagViolation_isSome]

/-- The opportunity check fires exactly on NaN savings. -/
theorem oppViolation_isSome (o : RankedOpportunity) :
    (oppViolation o).isSome = o.estimated_monthly_savings_usd.isNaN := by
  unfold oppViolation
  by_cases h : o.estimated_monthly_savings_usd.isNaN = true <;> simp [h]

/-- Exactly the conditions AuditResultV1::validate checks: NaN global
monthly or annual waste, NaN task/step ratio, NaN or negative per-flag
monthly savings, NaN per-opportunity savings. -/
def checkedViolation (r : AuditResultV1) : Bool :=
  r.global_metrics.estimated_monthly_waste_usd.isNaN ||
  r.global_metrics.estimated_annual_waste_usd.isNaN ||
  r.per_zap_findings.any (fun f =>
    f.metrics.task_step_ratio.isNaN ||
    f.flags.any (fun fl =>
      fl.impact.estimated_monthly_savings_usd.isNaN ||
      F.lt fl.impact.estimated_monthly_savings_usd (.fin 0))) ||
  r.opportunities_ranked.any (fun o => o.estimated_monthly_savings_usd.isNaN)

/-- C3 (amended): the validation gate of the analyze call fails, as a
whole and with no mutated report, exactly when one of the checked
fields is violated: NaN in the global monthly or annual waste, in a
task/step ratio, in a per-flag monthly savings or in a per-opportunity
monthly savings, or a negative per-flag monthly savings.  Annual
savings fields, the task price and the plan-analysis figures are not
inspected by the gate.  When the gate passes, the exact assembled
report is returned unchanged. -/
theorem c3_validation_gate_amended (r : AuditResultV1) :
    ((∃ e, analyzeFinalize r = .error e) ↔ checkedViolation r = true) ∧
    (checkedViolation r = false → analyzeFinalize r = .ok r) := by
  have hiff : (∃ e, r.validate = .error e) ↔ checkedViolation r = true := by
    unfold AuditResultV1.validate checkedViolation
    by_cases h1 : r.global_metrics.estimated_monthly_waste_usd.isNaN = true
    · simp [h1]
    · simp only [Bool.not_eq_true] at h1
      by_cases h2 : r.global_metrics.estimated_annual_waste_usd.isNaN = true
      · simp [h1, h2]
      · simp only [Bool.not_eq_true] at h2
        cases h3 : r.per_zap_findings.findSome? findingViolation with
        | some e =>
            have hsome : (r.per_zap_findings.findSome? findingViolation).isSome = true := by
              rw [h3]; rfl
            rw [findSome?_isSome_eq_any] at hsome
            simp only [findingViolation_isSome] at hsome
            simp [h1, h2, h3, hsome]
        | none =>
            have hnone : (r.per_zap_findings.findSome? findingViolation).isSome = false := by
              rw [h3]; rfl
            rw [findSome?_isSome_eq_any] at hnone
            simp only [findingViolation_isSome] at hnone
            cases h4 : r.opportunities_ranked.findSome? oppViolation with
            | some e =>
                have hsome4 : (r.opportunities_ranked.findSome? oppViolation).isSome = true := by
                  rw [h4]; rfl
                rw [findSome?_isSome_eq_any] at hsome4
                simp only [oppViolation_isSome] at hsome4
                simp [h1, h2, h3, h4, hnone, hsome4]
            | none =>
                have hnone4 : (r.opportunities_ranked.findSome? oppViolation).isSome = false := by
                  rw [h4]; rfl
                rw [findSome?_isSome_eq_any] at hnone4
                simp only [oppViolation_isSome] at hnone4
                simp [h1, h2, h3, h4, hnone, hnone4]
  constructor
  · constructor
    · rintro ⟨e, he⟩
      unfold analyzeFinalize at he
      cases hv : r.validate with
      | error e2 => exact hiff.mp ⟨e2, hv⟩
      | ok u => rw [hv] at he; cases he
    · intro hc
      obtain ⟨e, he⟩ := hiff.mpr hc
      exact ⟨"Validation failed: " ++ e, by unfold analyzeFinalize; rw [he]⟩
  · intro hc
    cases hv : r.validate with
    | error e =>
        have : checkedViolation r = true := hiff.mp ⟨e, hv⟩
        rw [hc] at this
        cases this
    | ok u => cases u; unfold analyzeFinalize; rw [hv]

/-- Spec-side reading of a NaN in any financial field of the report
(following the wording of the claim, not the source): the task price,
the global waste figures, the ratios, every flag savings figure
(monthly and annual), every opportunity savings figure, and the usage
percentile. -/
def specFinancialNaN (r : AuditResultV1) : Bool :=
  r.audit_metadata.pricing_assumptions.task_price_usd.isNaN ||
  r.global_metrics.estimated_monthly_waste_usd.isNaN ||
  r.global_metrics.estimated_annual_waste_usd.isNaN ||
  r.per_zap_findings.any (fun f =>
    f.metrics.task_step_ratio.isNaN ||
    f.flags.any (fun fl =>
      fl.impact.estimated_monthly_savings_usd.isNaN ||
      fl.impact.estimated_annual_savings_usd.isNaN)) ||
  r.opportunities_ranked.any (fun o => o.estimated_monthly_savings_usd.isNaN) ||
  r.plan_analysis.usage_percentile.isNaN

/-- Spec-side reading of a negative value in any savings field of the
report (following the wording of the claim, not the source). -/
def specNegativeSavings (r : AuditResultV1) : Bool :=
  r.per_zap_findings.any (fun f =>
    f.flags.any (fun fl =>
      F.lt fl.impact.estimated_monthly_savings_usd (.fin 0) ||
      F.lt fl.impact.estimated_annual_savings_usd (.fin 0))) ||
  r.opportunities_ranked.any (fun o => F.lt o.estimated_monthly_savings_usd (.fin 0))

/-- A report with a NaN in a financial field (the annual savings of its
single flag) that every check of the gate misses. -/
def c3report : AuditResultV1 :=
  { schema_version := "1.0.0"
    audit_metadata :=
      { generated_at := "t"
        input_sources := { zap_json := true, task_csv := false }
        pricing_assumptions := { plan_tier := "Professional", task_price_usd := .fin 0 }
        confidence_overview := { high := 1, medium := 0, low := 0 } }
    global_metrics :=
      { total_zaps := 1, active_zaps := 1, total_monthly_tasks := 0,
        estimated_monthly_waste_tasks := 0, estimated_monthly_waste_usd := .fin 0,
        estimated_annual_waste_usd := .fin 0, zombie_zap_count := 0,
        high_severity_flag_count := 1 }
    per_zap_findings :=
      [{ zap_id := "1", zap_name := "Z", status := "on", is_zombie := false,
         metrics := { steps := 1, monthly_tasks := 0, task_step_ratio := .fin 0 },
         confidence := .high,
         flags := [{ code := .lateFilter, severity := .high, confidence := .high,
                     impact := { estimated_monthly_savings_usd := .fin 0,
                                 estimated_annual_savings_usd := .nan },
                     implementation := { estimated_effort_hours := .fin 1 } }],
         warnings := [] }]
    opportunities_ranked := []
    plan_analysis :=
      { current_plan := "Professional", monthly_task_usage := 0,
        plan_task_capacity := { min := 2000, max := 2000 },
        usage_percentile := .fin 0,
        premium_features_detected :=
          { paths := false, filters := false, webhooks := false, custom_logic := false },
        downgrade_safe := true } }

/-- The same report with the flag monthly savings replaced by NaN: a
violation the gate does check. -/
def c3reportBad : AuditResultV1 :=
  { c3report with per_zap_findings :=
      [{ zap_id := "1", zap_name := "Z", status := "on", is_zombie := false,
         metrics := { steps := 1, monthly_tasks := 0, task_step_ratio := .fin 0 },
         confidence := .high,
         flags := [{ code := .lateFilter, severity := .high, confidence := .high,
                     impact := { estimated_monthly_savings_usd := .nan,
                                 estimated_annual_savings_usd := .nan },
                     implementation := { estimated_effort_hours := .fin 1 } }],
         warnings := [] }] }

/-- Counterexample for C3 as stated: a report carrying a NaN in a
financial field (the annual savings of a flag) passes the gate and the
analyze call returns the report instead of reporting failure. -/
theorem c3_validation_gate_counterexample :
    specFinancialNaN c3report = true ∧ analyzeFinalize c3report = .ok c3report := by
  exact ⟨rfl, rfl⟩

/-- Witness for C3 (amended): the gate passes the NaN-annual report
unchanged, and fails the NaN-monthly report as a whole. -/
theorem c3_validation_gate_amended_witness :
    checkedViolation c3report = false ∧ analyzeFinalize c3report = .ok c3report ∧
    checkedViolation c3reportBad = true ∧ (∃ e, analyzeFinalize c3reportBad = .error e) := by
  exact ⟨rfl, (c3_validation_gate_amended c3report).2 rfl, rfl,
    (c3_validation_gate_amended c3reportBad).1.mpr rfl⟩

-- ============================================================
-- Generic lemmas about the stable sort model
-- ============================================================

/-- Inserting preserves the multiset of elements. -/
theorem ordInsert_perm {α : Type} (le : α → α → Bool) (a : α) (l : List α) :
    (ordInsert le a l).Perm (a :: l) := by
  induction l with
  | nil => exact List.Perm.refl _
  | cons b t ih =>
      unfold ordInsert
      by_cases h : le a b = true
      · simp [h]
      · simp only [Bool.not_eq_true] at h
        simp only [h, Bool.false_eq_true, if_false]
        exact (ih.cons b).trans (List.Perm.swap a b t)

/-- Sorting preserves the multiset of elements. -/
theorem insSort_perm {α : Type} (le : α → α → Bool) (l : List α) :
    (insSort le l).Perm l := by
  induction l with
  | nil => exact List.Perm.refl _
  | cons b t ih => exact (ordInsert_perm le b (insSort le t)).trans (ih.cons b)

/-- Insertion into a sorted list keeps it sorted, for a comparator
total and transitive on the elements involved. -/
theorem ordInsert_pairwise {α : Type} {le : α → α → Bool} {x : α} :
    ∀ {l : List α}, l.Pairwise (fun a b => le a b = true) →
    (∀ b ∈ l, le x b = true ∨ le b x = true) →
    (∀ b ∈ l, ∀ c ∈ l, le x b = true → le b c = true → le x c = true) →
    (ordInsert le x l).Pairwise (fun a b => le a b = true) := by
  intro l
  induction l with
  | nil => intro _ _ _; simp [ordInsert]
  | cons b t ih =>
      intro hl htot htr
      unfold ordInsert
      by_cases h : le x b = true
      · simp only [h, if_true]
        refine List.pairwise_cons.mpr ⟨?_, hl⟩
        intro c hc
        rcases List.mem_cons.mp hc with rfl | hct
        · exact h
        · exact htr b (List.mem_cons_self _ _) c (List.mem_cons_of_mem _ hct) h
            ((List.pairwise_cons.mp hl).1 c hct)
      · have hbx : le b x = true :=
          (htot b (List.mem_cons_self _ _)).resolve_left h
        simp only [Bool.not_eq_true] at h
        simp only [h, Bool.false_eq_true, if_false]
        refine List.pairwise_cons.mpr ⟨?_, ?_⟩
        · intro c hc
          have hc2 : c ∈ x :: t := (ordInsert_perm le x t).mem_iff.mp hc
          rcases List.mem_cons.mp hc2 with rfl | hct
          · exact hbx
          · exact (List.pairwise_cons.mp hl).1 c hct
        · exact ih (List.pairwise_cons.mp hl).2
            (fun c hc => htot c (List.mem_cons_of_mem _ hc))
            (fun c hc d hd => htr c (List.mem_cons_of_mem _ hc) d (List.mem_cons_of_mem _ hd))

/-- The insertion sort is sorted, for a comparator total and transitive
on the list elements. -/
theorem insSort_pairwise {α : Type} (le : α → α → Bool) :
    ∀ (l : List α),
    (∀ a ∈ l, ∀ b ∈ l, le a b = true ∨ le b a = true) →
    (∀ a ∈ l, ∀ b ∈ l, ∀ c ∈ l, le a b = true → le b c = true → le a c = true) →
    (insSort le l).Pairwise (fun a b => le a b = true) := by
  intro l
  induction l with
  | nil => intro _ _; simp [insSort]
  | cons x t ih =>
      intro htot htr
      unfold insSort
      have hmem : ∀ c ∈ insSort le t, c ∈ t :=
        fun c hc => (insSort_perm le t).mem_iff.mp hc
      refine ordInsert_pairwise ?_ ?_ ?_
      · exact ih (fun a ha b hb => htot a (List.mem_cons_of_mem _ ha) b (List.mem_cons_of_mem _ hb))
          (fun a ha b hb c hc => htr a (List.mem_cons_of_mem _ ha) b (List.mem_cons_of_mem _ hb)
            c (List.mem_cons_of_mem _ hc))
      · intro b hb
        exact htot x (List.mem_cons_self _ _) b (List.mem_cons_of_mem _ (hmem b hb))
      · intro b hb c hc
        exact htr x (List.mem_cons_self _ _) b (List.mem_cons_of_mem _ (hmem b hb))
          c (List.mem_cons_of_mem _ (hmem c hc))

-- ============================================================
-- Comparator facts for the savings orders
-- ============================================================

/-- On values that are not NaN, the sort_by comparator test agrees
with the symbolic f32 order. -/
theorem pcmp_getD_eq_le {y x : F} (hx : x.isNaN = false) (hy : y.isNaN = false) :
    (!((F.pcmp y x).getD .eq == .gt)) = F.le y x := by
  cases x with
  | nan => simp [F.isNaN] at hx
  | fin a =>
      cases y with
      | nan => simp [F.isNaN] at hy
      | fin b =>
          rcases lt_trichotomy b a with h | h | h
          · simp [F.pcmp, F.le, h, le_of_lt h] <;> decide
          · subst h
            simp [F.pcmp, F.le] <;> decide
          · have h1 : ¬ b < a := not_lt.mpr (le_of_lt h)
            have h2 : ¬ b ≤ a := not_le.mpr h
            simp [F.pcmp, F.le, h1, h, h2] <;> decide
      | inf => simp [F.pcmp, F.le] <;> decide
      | ninf => simp [F.pcmp, F.le] <;> decide
  | inf =>
      cases y with
      | nan => simp [F.isNaN] at hy
      | fin b => simp [F.pcmp, F.le] <;> decide
      | inf => simp [F.pcmp, F.le] <;> decide
      | ninf => simp [F.pcmp, F.le] <;> decide
  | ninf =>
      cases y with
      | nan => simp [F.isNaN] at hy
      | fin b => simp [F.pcmp, F.le] <;> decide
      | inf => simp [F.pcmp, F.le] <;> decide
      | ninf => simp [F.pcmp, F.le] <;> decide

/-- Totality of the symbolic f32 order away from NaN. -/
theorem fLe_total {x y : F} (hx : x.isNaN = false) (hy : y.isNaN = false) :
    F.le x y = true ∨ F.le y x = true := by
  cases x <;> cases y <;> simp_all [F.le, F.isNaN]
  exact le_total _ _

/-- Transitivity of the symbolic f32 order. -/
theorem fLe_trans {x y z : F} (h1 : F.le x y = true) (h2 : F.le y z = true) :
    F.le x z = true := by
  cases x <;> cases y <;> cases z <;> simp_all [F.le]
  exact le_trans h1 h2

/-- Strictness from non-strict order and disequality. -/
theorem fLt_of_le_of_ne {x y : F} (h : F.le x y = true) (hne : x ≠ y) :
    F.lt x y = true := by
  cases x <;> cases y <;> simp_all [F.le, F.lt]
  exact lt_of_le_of_ne h hne

-- ============================================================
-- C8: the opportunity ranker
-- ============================================================

/-- Rank assignment keeps the length. -/
theorem assignRanks_length : ∀ (i : Nat) (l : List RankedOpportunity),
    (assignRanks i l).length = l.length := by
  intro i l
  induction l generalizing i with
  | nil => rfl
  | cons o t ih => simp [assignRanks, ih]

/-- Rank assignment writes consecutive ranks from the start index. -/
theorem assignRanks_map_rank : ∀ (i : Nat) (l : List RankedOpportunity),
    (assignRanks i l).map (fun o => o.rank) = List.range' i l.length := by
  intro i l
  induction l generalizing i with
  | nil => rfl
  | cons o t ih => simp [assignRanks, List.range', ih]

/-- Rank assignment does not touch the savings figures. -/
theorem assignRanks_map_savings : ∀ (i : Nat) (l : List RankedOpportunity),
    (assignRanks i l).map (fun o => o.estimated_monthly_savings_usd) =
      l.map (fun o => o.estimated_monthly_savings_usd) := by
  intro i l
  induction l generalizing i with
  | nil => rfl
  | cons o t ih => simp [assignRanks, ih]

/-- Every ranked entry carries the payload of a list entry. -/
theorem assignRanks_mem : ∀ {i : Nat} {l : List RankedOpportunity} {o2 : RankedOpportunity},
    o2 ∈ assignRanks i l → ∃ o ∈ l,
      o2.zap_id = o.zap_id ∧ o2.flag_code = o.flag_code ∧
      o2.estimated_monthly_savings_usd = o.estimated_monthly_savings_usd ∧
      o2.confidence = o.confidence := by
  intro i l
  induction l generalizing i with
  | nil => intro o2 h; cases h
  | cons o t ih =>
      intro o2 h
      rcases List.mem_cons.mp h with rfl | h2
      · exact ⟨o, List.mem_cons_self _ _, rfl, rfl, rfl, rfl⟩
      · obtain ⟨o3, ho3, hf⟩ := ih h2
        exact ⟨o3, List.mem_cons_of_mem _ ho3, hf⟩

/-- The flattened opportunity pool of rank_opportunities. -/
def oppPool (findings : List ZapFinding) : List RankedOpportunity :=
  (findings.map (fun finding =>
    finding.flags.map (fun flag =>
      { zap_id := finding.zap_id
        flag_code := flag.code
        estimated_monthly_savings_usd := flag.impact.estimated_monthly_savings_usd
        confidence := flag.confidence
        rank := 0 : RankedOpportunity }))).flatten

/-- rank_opportunities in terms of the pool. -/
theorem rank_opportunities_eq (findings : List ZapFinding) :
    rank_opportunities findings =
      assignRanks 1 ((insSort rankLe (oppPool findings)).take 10) := rfl

/-- Membership decomposition of the pool. -/
theorem oppPool_mem {findings : List ZapFinding} {o : RankedOpportunity}
    (h : o ∈ oppPool findings) :
    ∃ f ∈ findings, ∃ fl ∈ f.flags,
      o.zap_id = f.zap_id ∧ o.flag_code = fl.code ∧
      o.estimated_monthly_savings_usd = fl.impact.estimated_monthly_savings_usd ∧
      o.confidence = fl.confidence := by
  obtain ⟨inner, hin, ho⟩ := List.mem_flatten.mp h
  obtain ⟨f, hf, rfl⟩ := List.mem_map.mp hin
  obtain ⟨fl, hfl, rfl⟩ := List.mem_map.mp ho
  exact ⟨f, hf, fl, hfl, rfl, rfl, rfl, rfl⟩

/-- The savings of the pool are the flattened savings of the flags. -/
theorem oppPool_map_savings (findings : List ZapFinding) :
    (oppPool findings).map (fun o => o.estimated_monthly_savings_usd) =
      (findings.map (fun f => f.flags.map
        (fun fl => fl.impact.estimated_monthly_savings_usd))).flatten := by
  unfold oppPool
  simp only [List.map_flatten, List.map_map, Function.comp_def]

/-- C8: the opportunity ranker flattens all flags, stable-sorts them
descending by monthly savings, truncates to at most 10 entries and
assigns ranks 1..N in order; the output entries carry flag payloads,
and with pairwise-distinct savings the order is strictly descending.
Savings are assumed non-NaN, which holds for every detector-produced
flag (they pass through guard_nan). -/
theorem c8_rank_opportunities (findings : List ZapFinding)
    (hfin : ∀ f ∈ findings, ∀ fl ∈ f.flags,
      fl.impact.estimated_monthly_savings_usd.isNaN = false) :
    (rank_opportunities findings).length =
      min 10 ((findings.map (fun f => f.flags.length)).sum) ∧
    (rank_opportunities findings).map (fun o => o.rank) =
      List.range' 1 (rank_opportunities findings).length ∧
    (rank_opportunities findings).Pairwise (fun a b =>
      F.le b.estimated_monthly_savings_usd a.estimated_monthly_savings_usd = true) ∧
    (∀ o ∈ rank_opportunities findings, ∃ f ∈ findings, ∃ fl ∈ f.flags,
      o.zap_id = f.zap_id ∧ o.flag_code = fl.code ∧
      o.estimated_monthly_savings_usd = fl.impact.estimated_monthly_savings_usd ∧
      o.confidence = fl.confidence) ∧
    (((findings.map (fun f => f.flags.map
        (fun fl => fl.impact.estimated_monthly_savings_usd))).flatten).Nodup →
      (rank_opportunities findings).Pairwise (fun a b =>
        F.lt b.estimated_monthly_savings_usd a.estimated_monthly_savings_usd = true)) := by
  have hpoolNaN : ∀ o ∈ oppPool findings,
      o.estimated_monthly_savings_usd.isNaN = false := by
    intro o ho
    obtain ⟨f, hf, fl, hfl, _, _, hsav, _⟩ := oppPool_mem ho
    rw [hsav]
    exact hfin f hf fl hfl
  have hsortmem : ∀ o ∈ insSort rankLe (oppPool findings), o ∈ oppPool findings :=
    fun o ho => (insSort_perm rankLe (oppPool findings)).mem_iff.mp ho
  have htakemem : ∀ o ∈ (insSort rankLe (oppPool findings)).take 10,
      o ∈ oppPool findings :=
    fun o ho => hsortmem o ((List.take_sublist 10 _).mem ho)
  have hrankLe : ∀ a ∈ oppPool findings, ∀ b ∈ oppPool findings,
      rankLe a b = F.le b.estimated_monthly_savings_usd a.estimated_monthly_savings_usd := by
    intro a ha b hb
    exact pcmp_getD_eq_le (hpoolNaN a ha) (hpoolNaN b hb)
  have hsorted : (insSort rankLe (oppPool findings)).Pairwise
      (fun a b => rankLe a b = true) := by
    apply insSort_pairwise
    · intro a ha b hb
      rw [hrankLe a ha b hb, hrankLe b hb a ha]
      exact fLe_total (hpoolNaN b hb) (hpoolNaN a ha)
    · intro a ha b hb c hc
      rw [hrankLe a ha b hb, hrankLe b hb c hc, hrankLe a ha c hc]
      intro h1 h2
      exact fLe_trans h2 h1
  have hsortedLe : (insSort rankLe (oppPool findings)).Pairwise
      (fun a b => F.le b.estimated_monthly_savings_usd a.estimated_monthly_savings_usd = true) := by
    refine List.Pairwise.imp_of_mem ?_ hsorted
    intro a b ha hb h
    rw [← hrankLe a (hsortmem a ha) b (hsortmem b hb)]
    exact h
  have htakeLe : ((insSort rankLe (oppPool findings)).take 10).Pairwise
      (fun a b => F.le b.estimated_monthly_savings_usd a.estimated_monthly_savings_usd = true) :=
    List.Pairwise.sublist (List.take_sublist 10 _) hsortedLe
  refine ⟨?_, ?_, ?_, ?_, ?_⟩
  · rw [rank_opportunities_eq, assignRanks_length, List.length_take,
      (insSort_perm rankLe (oppPool findings)).length_eq]
    have hlen : (oppPool findings).length =
        (findings.map (fun f => f.flags.length)).sum := by
      unfold oppPool
      rw [List.length_flatten, List.map_map]
      congr 1
      apply List.map_congr_left
      intro f _
      simp [Function.comp, List.length_map]
    rw [hlen]
  · rw [rank_opportunities_eq, assignRanks_map_rank, assignRanks_length]
  · rw [rank_opportunities_eq]
    have h1 : (((insSort rankLe (oppPool findings)).take 10).map
        (fun o => o.estimated_monthly_savings_usd)).Pairwise
          (fun a b => F.le b a = true) :=
      List.pairwise_map.mpr htakeLe
    have h2 : ((assignRanks 1 ((insSort rankLe (oppPool findings)).take 10)).map
        (fun o => o.estimated_monthly_savings_usd)).Pairwise
          (fun a b => F.le b a = true) := by
      rw [assignRanks_map_savings]
      exact h1
    exact List.pairwise_map.mp h2
  · intro o ho
    rw [rank_opportunities_eq] at ho
    obtain ⟨o2, ho2, hz, hfc, hs, hcf⟩ := assignRanks_mem ho
    obtain ⟨f, hf, fl, hfl, hz2, hfc2, hs2, hcf2⟩ := oppPool_mem (htakemem o2 ho2)
    exact ⟨f, hf, fl, hfl, hz.trans hz2, hfc.trans hfc2, hs.trans hs2, hcf.trans hcf2⟩
  · intro hnodup
    have hnodupPool : ((oppPool findings).map
        (fun o => o.estimated_monthly_savings_usd)).Nodup := by
      rw [oppPool_map_savings]
      exact hnodup
    have hnodupSort : ((insSort rankLe (oppPool findings)).map
        (fun o => o.estimated_monthly_savings_usd)).Nodup :=
      (((insSort_perm rankLe (oppPool findings)).map _).symm).nodup hnodupPool
    have hnodupTake : (((insSort rankLe (oppPool findings)).take 10).map
        (fun o => o.estimated_monthly_savings_usd)).Nodup :=
      ((List.take_sublist 10 _).map _).nodup hnodupSort
    have hne : ((insSort rankLe (oppPool findings)).take 10).Pairwise
        (fun a b => a.estimated_monthly_savings_usd ≠ b.estimated_monthly_savings_usd) :=
      List.pairwise_map.mp hnodupTake
    have hcomb := htakeLe.and hne
    have hlt : ((insSort rankLe (oppPool findings)).take 10).Pairwise
        (fun a b => F.lt b.estimated_monthly_savings_usd
          a.estimated_monthly_savings_usd = true) := by
      refine hcomb.imp ?_
      intro a b hab
      exact fLt_of_le_of_ne hab.1 (fun h => hab.2 h.symm)
    rw [rank_opportunities_eq]
    have h1 : (((insSort rankLe (oppPool findings)).take 10).map
        (fun o => o.estimated_monthly_savings_usd)).Pairwise
          (fun a b => F.lt b a = true) :=
      List.pairwise_map.mpr hlt
    have h2 : ((assignRanks 1 ((insSort rankLe (oppPool findings)).take 10)).map
        (fun o => o.estimated_monthly_savings_usd)).Pairwise
          (fun a b => F.lt b a = true) := by
      rw [assignRanks_map_savings]
      exact h1
    exact List.pairwise_map.mp h2

/-- Ranker fixture: one finding with one flag of the given savings. -/
def c8mkFinding (i : Nat) : ZapFinding :=
  { zap_id := toString i, zap_name := "Z", status := "on", is_zombie := false,
    metrics := { steps := 1, monthly_tasks := 0, task_step_ratio := .fin 0 },
    confidence := .high,
    flags := [{ code := .lateFilter, severity := .high, confidence := .high,
                impact := { estimated_monthly_savings_usd := .fin i,
                            estimated_annual_savings_usd := .fin (12 * i) },
                implementation := { estimated_effort_hours := .fin 1 } }],
    warnings := [] }

/-- Ranker fixture: 15 findings with pairwise distinct savings. -/
def c8findings : List ZapFinding := (List.range 15).map c8mkFinding

/-- Witness for C8: ranking 15 findings with distinct savings returns
exactly 10 entries, ranks 1 through 10, sorted strictly descending by
savings. -/
theorem c8_rank_opportunities_witness :
    (rank_opportunities c8findings).length = 10 ∧
    (rank_opportunities c8findings).map (fun o => o.rank) = List.range' 1 10 ∧
    (rank_opportunities c8findings).Pairwise (fun a b =>
      F.lt b.estimated_monthly_savings_usd a.estimated_monthly_savings_usd = true) := by
  obtain ⟨hlen, hranks, _, _, hstrict⟩ :=
    c8_rank_opportunities c8findings (by decide)
  have hsum : min 10 ((c8findings.map (fun f => f.flags.length)).sum) = 10 := by decide
  have hlen10 : (rank_opportunities c8findings).length = 10 := by rw [hlen, hsum]
  refine ⟨hlen10, ?_, hstrict (by decide)⟩
  rw [hranks, hlen10]

-- ============================================================
-- C7: the cross-zap pattern detector
-- ============================================================

/-- A kind is accumulated by the grouping fold exactly when a flag of
that kind occurs (generalized over the accumulator). -/
theorem mem_patternKeys_aux :
    ∀ (l : List EfficiencyFlag) (acc : List String) (k : String),
    (k ∈ l.foldl
      (fun (acc : List String) f =>
        if acc.any (fun kk => kk == f.flag_type) then acc else acc ++ [f.flag_type])
      acc) ↔
    (k ∈ acc ∨ ∃ f ∈ l, f.flag_type = k) := by
  intro l
  induction l with
  | nil => intro acc k; simp
  | cons f t ih =>
      intro acc k
      simp only [List.foldl_cons]
      by_cases h : acc.any (fun kk => kk == f.flag_type) = true
      · rw [if_pos h, ih]
        constructor
        · rintro (hk | ⟨g, hg, hgk⟩)
          · exact Or.inl hk
          · exact Or.inr ⟨g, List.mem_cons_of_mem _ hg, hgk⟩
        · rintro (hk | ⟨g, hg, hgk⟩)
          · exact Or.inl hk
          · rcases List.mem_cons.mp hg with rfl | hgt
            · obtain ⟨kk, hkk, hbeq⟩ := List.any_eq_true.mp h
              have hkf : kk = g.flag_type := by simpa using hbeq
              exact Or.inl (by rw [← hgk, ← hkf]; exact hkk)
            · exact Or.inr ⟨g, hgt, hgk⟩
      · rw [if_neg h, ih]
        constructor
        · rintro (hk | ⟨g, hg, hgk⟩)
          · rcases List.mem_append.mp hk with hk | hk
            · exact Or.inl hk
            · right
              exact ⟨f, List.mem_cons_self _ _, (List.mem_singleton.mp hk).symm⟩
          · exact Or.inr ⟨g, List.mem_cons_of_mem _ hg, hgk⟩
        · rintro (hk | ⟨g, hg, hgk⟩)
          · exact Or.inl (List.mem_append_left _ hk)
          · rcases List.mem_cons.mp hg with rfl | hgt
            · exact Or.inl (List.mem_append_right _ (List.mem_singleton.mpr hgk.symm))
            · exact Or.inr ⟨g, hgt, hgk⟩

/-- Membership in the first-occurrence key list. -/
theorem mem_patternKeys {all_flags : List EfficiencyFlag} {k : String} :
    k ∈ patternKeys all_flags ↔ ∃ f ∈ all_flags, f.flag_type = k := by
  simp only [patternKeys]
  rw [mem_patternKeys_aux]
  simp

/-- Folding f32 addition over finite values from a finite start stays
finite. -/
theorem foldl_add_fin :
    ∀ (l : List F) (q0 : ℚ), (∀ x ∈ l, ∃ q, x = F.fin q) →
    ∃ q, l.foldl F.add (.fin q0) = F.fin q := by
  intro l
  induction l with
  | nil => intro q0 _; exact ⟨q0, rfl⟩
  | cons x t ih =>
      intro q0 hx
      obtain ⟨qx, hqx⟩ := hx x (List.mem_cons_self _ _)
      subst hqx
      rw [List.foldl_cons]
      have hstep : F.add (.fin q0) (.fin qx) = F.fin (q0 + qx) := rfl
      rw [hstep]
      exact ih (q0 + qx) (fun y hy => hx y (List.mem_cons_of_mem _ hy))

/-- A sum of finite f32 values is finite. -/
theorem sumList_fin {l : List F} (h : ∀ x ∈ l, ∃ q, x = F.fin q) :
    ∃ q, F.sumList l = F.fin q :=
  foldl_add_fin l 0 h

/-- Shape of a produced pattern. -/
theorem patternOf_eq_some {af : List EfficiencyFlag} {k : String} {p : PatternFinding}
    (h : patternOf af k = some p) :
    3 ≤ (af.filter (fun f => f.flag_type == k)).length ∧
    p = { pattern_type := k
          pattern_name := (patternText k).1
          affected_zap_ids := (af.filter (fun f => f.flag_type == k)).map
            (fun f => f.zap_id)
          affected_count := (af.filter (fun f => f.flag_type == k)).length
          median_chain_length := none
          total_waste_tasks := (F.div
            (F.sumList ((af.filter (fun f => f.flag_type == k)).map
              (fun f => f.estimated_monthly_savings))) (.fin (1/40))).toU32
          total_waste_usd := F.sumList ((af.filter (fun f => f.flag_type == k)).map
            (fun f => f.estimated_monthly_savings))
          refactor_guidance := (patternText k).2
          severity :=
            if 8 ≤ (af.filter (fun f => f.flag_type == k)).length then "high"
            else if 5 ≤ (af.filter (fun f => f.flag_type == k)).length then "medium"
            else "low" } := by
  by_cases hlen : 3 ≤ (af.filter (fun f => f.flag_type == k)).length
  · refine ⟨hlen, ?_⟩
    simp only [patternOf, hlen, if_true, Option.some.injEq] at h
    exact h.symm
  · exfalso
    simp [patternOf, hlen] at h

/-- A kind at the threshold produces a pattern. -/
theorem patternOf_isSome {af : List EfficiencyFlag} {k : String}
    (h : 3 ≤ (af.filter (fun f => f.flag_type == k)).length) :
    (patternOf af k).isSome = true := by
  simp [patternOf, h]

/-- C7: a finding kind yields a pattern exactly when its group reaches
the threshold of 3; each pattern counts its group, lists the member
zap ids, sums the member savings into total_waste_usd, escalates
severity at 5 and 8; and the pattern list is sorted descending by
affected_count times total_waste_usd.  Hypotheses: at most one flag of
a given kind per workflow (so group size counts affected workflows),
and finite member savings (the source unwraps the score comparison and
would panic on NaN). -/
theorem c7_cross_zap_patterns (all_flags : List EfficiencyFlag)
    (hids : ∀ k : String,
      ((all_flags.filter (fun f => f.flag_type == k)).map (fun f => f.zap_id)).Nodup)
    (hfin : ∀ f ∈ all_flags, ∃ q, f.estimated_monthly_savings = F.fin q) :
    (∀ k : String,
      (∃ p ∈ detect_cross_zap_patterns all_flags, p.pattern_type = k) ↔
      3 ≤ (all_flags.filter (fun f => f.flag_type == k)).length) ∧
    (∀ p ∈ detect_cross_zap_patterns all_flags,
      p.affected_count =
        (all_flags.filter (fun f => f.flag_type == p.pattern_type)).length ∧
      p.affected_zap_ids =
        (all_flags.filter (fun f => f.flag_type == p.pattern_type)).map
          (fun f => f.zap_id) ∧
      p.affected_zap_ids.Nodup ∧
      p.affected_count = p.affected_zap_ids.length ∧
      p.total_waste_usd = F.sumList
        ((all_flags.filter (fun f => f.flag_type == p.pattern_type)).map
          (fun f => f.estimated_monthly_savings)) ∧
      p.severity = (if 8 ≤ p.affected_count then "high"
        else if 5 ≤ p.affected_count then "medium" else "low")) ∧
    (detect_cross_zap_patterns all_flags).Pairwise
      (fun a b => F.le (patternScore b) (patternScore a) = true) := by
  have hmem : ∀ p : PatternFinding,
      p ∈ detect_cross_zap_patterns all_flags ↔
      ∃ k ∈ patternKeys all_flags, patternOf all_flags k = some p := by
    intro p
    simp only [detect_cross_zap_patterns]
    rw [(insSort_perm patternLe _).mem_iff, List.mem_filterMap]
  have hprop : ∀ (k : String) (p : PatternFinding), patternOf all_flags k = some p →
      p.pattern_type = k ∧
      p.affected_count = (all_flags.filter (fun f => f.flag_type == k)).length ∧
      p.affected_zap_ids =
        (all_flags.filter (fun f => f.flag_type == k)).map (fun f => f.zap_id) ∧
      p.total_waste_usd = F.sumList ((all_flags.filter (fun f => f.flag_type == k)).map
        (fun f => f.estimated_monthly_savings)) ∧
      p.severity = (if 8 ≤ (all_flags.filter (fun f => f.flag_type == k)).length
        then "high"
        else if 5 ≤ (all_flags.filter (fun f => f.flag_type == k)).length
        then "medium"
        else "low") := by
    intro k p hp
    obtain ⟨_, hrec⟩ := patternOf_eq_some hp
    subst hrec
    exact ⟨rfl, rfl, rfl, rfl, rfl⟩
  have hscore : ∀ p ∈ detect_cross_zap_patterns all_flags,
      (patternScore p).isNaN = false := by
    intro p hp
    obtain ⟨k, hk, hsome⟩ := (hmem p).mp hp
    obtain ⟨hpt, _, _, hwaste, _⟩ := hprop k p hsome
    have hfins : ∀ x ∈ (all_flags.filter (fun f => f.flag_type == k)).map
        (fun f => f.estimated_monthly_savings), ∃ q, x = F.fin q := by
      intro x hx
      obtain ⟨f, hf, hfx⟩ := List.mem_map.mp hx
      obtain ⟨q, hq⟩ := hfin f (List.mem_filter.mp hf).1
      exact ⟨q, by rw [← hfx, hq]⟩
    obtain ⟨q, hq⟩ := sumList_fin hfins
    simp only [patternScore, hwaste, hq, F.mul, F.isNaN]
  have hscoreBase : ∀ p ∈ (patternKeys all_flags).filterMap (patternOf all_flags),
      (patternScore p).isNaN = false := by
    intro p hp
    refine hscore p ?_
    simp only [detect_cross_zap_patterns]
    exact (insSort_perm patternLe _).mem_iff.mpr hp
  have hpLe : ∀ a ∈ (patternKeys all_flags).filterMap (patternOf all_flags),
      ∀ b ∈ (patternKeys all_flags).filterMap (patternOf all_flags),
      patternLe a b = F.le (patternScore b) (patternScore a) := by
    intro a ha b hb
    exact pcmp_getD_eq_le (hscoreBase a ha) (hscoreBase b hb)
  have hsorted : (detect_cross_zap_patterns all_flags).Pairwise
      (fun a b => patternLe a b = true) := by
    simp only [detect_cross_zap_patterns]
    apply insSort_pairwise
    · intro a ha b hb
      rw [hpLe a ha b hb, hpLe b hb a ha]
      exact fLe_total (hscoreBase b hb) (hscoreBase a ha)
    · intro a ha b hb c hc
      rw [hpLe a ha b hb, hpLe b hb c hc, hpLe a ha c hc]
      intro h1 h2
      exact fLe_trans h2 h1
  have hsortedLe : (detect_cross_zap_patterns all_flags).Pairwise
      (fun a b => F.le (patternScore b) (patternScore a) = true) := by
    refine List.Pairwise.imp_of_mem ?_ hsorted
    intro a b ha hb h
    have ha2 := (insSort_perm patternLe _).mem_iff.mp ha
    have hb2 := (insSort_perm patternLe _).mem_iff.mp hb
    rw [← hpLe a ha2 b hb2]
    exact h
  refine ⟨?_, ?_, hsortedLe⟩
  · intro k
    constructor
    · rintro ⟨p, hp, hpt⟩
      obtain ⟨k2, hk2, hsome⟩ := (hmem p).mp hp
      obtain ⟨hpt2, _, _, _, _⟩ := hprop k2 p hsome
      rw [← hpt, hpt2]
      exact (patternOf_eq_some hsome).1
    · intro hlen
      have hkmem : k ∈ patternKeys all_flags := by
        rw [mem_patternKeys]
        have hpos : 0 < (all_flags.filter (fun f => f.flag_type == k)).length :=
          lt_of_lt_of_le (by norm_num) hlen
        obtain ⟨f, hf⟩ := List.exists_mem_of_length_pos hpos
        have hf2 := List.mem_filter.mp hf
        exact ⟨f, hf2.1, by simpa using hf2.2⟩
      obtain ⟨p, hp⟩ := Option.isSome_iff_exists.mp (patternOf_isSome hlen)
      exact ⟨p, (hmem p).mpr ⟨k, hkmem, hp⟩, (hprop k p hp).1⟩
  · intro p hp
    obtain ⟨k, hk, hsome⟩ := (hmem p).mp hp
    obtain ⟨hpt, hcount, hzids, hwaste, hsev⟩ := hprop k p hsome
    subst hpt
    refine ⟨hcount, hzids, ?_, ?_, hwaste, ?_⟩
    · rw [hzids]
      exact hids _
    · rw [hcount, hzids, List.length_map]
    · rw [hsev, hcount]

/-- Pattern fixture flag of a given kind, zap id and savings. -/
def c7flag (ty : String) (zid : Nat) (sav : ℚ) : EfficiencyFlag :=
  { zap_id := zid, zap_title := "Z", flag_type := ty, severity := "high",
    most_common_error := none, error_trend := none, max_streak := none,
    estimated_monthly_savings := .fin sav, estimated_annual_savings := .fin (12 * sav),
    is_fallback := false, confidence := "high" }

/-- Three flags of one kind and two of another, distinct zap ids per kind. -/
def c7flags : List EfficiencyFlag :=
  [c7flag "error_loop" 1 5, c7flag "error_loop" 2 4, c7flag "error_loop" 3 3,
   c7flag "polling_trigger" 4 2, c7flag "polling_trigger" 5 1]

theorem c7_cross_zap_patterns_witness :
    (∃ p ∈ detect_cross_zap_patterns c7flags,
      p.pattern_type = "error_loop" ∧ p.affected_count = 3 ∧ p.severity = "low") ∧
    ¬ (∃ p ∈ detect_cross_zap_patterns c7flags,
      p.pattern_type = "polling_trigger") := by
  have hids7 : ∀ k : String,
      ((c7flags.filter (fun f => f.flag_type == k)).map (fun f => f.zap_id)).Nodup := by
    intro k
    by_cases h1 : ("error_loop" : String) = k
    · subst h1
      decide
    · by_cases h2 : ("polling_trigger" : String) = k
      · subst h2
        decide
      · have hempty : c7flags.filter (fun f => f.flag_type == k) = [] := by
          simp [c7flags, c7flag, beq_iff_eq, h1, h2]
        rw [hempty]
        simp
  have hfin7 : ∀ f ∈ c7flags, ∃ q, f.estimated_monthly_savings = F.fin q := by
    intro f hf
    simp only [c7flags] at hf
    fin_cases hf
    · exact ⟨5, rfl⟩
    · exact ⟨4, rfl⟩
    · exact ⟨3, rfl⟩
    · exact ⟨2, rfl⟩
    · exact ⟨1, rfl⟩
  obtain ⟨hiff, hprops, _⟩ := c7_cross_zap_patterns c7flags hids7 hfin7
  constructor
  · obtain ⟨p, hp, hpt⟩ := (hiff "error_loop").mpr (by decide)
    obtain ⟨hcnt, _, _, _, _, hsev⟩ := hprops p hp
    rw [hpt] at hcnt
    have hc3 : p.affected_count = 3 := by
      rw [hcnt]
      decide
    refine ⟨p, hp, hpt, hc3, ?_⟩
    rw [hsev, hc3]
    decide
  · rintro ⟨p, hp, hpt⟩
    have h := (hiff "polling_trigger").mp ⟨p, hp, hpt⟩
    have h2 : (c7flags.filter (fun f => f.flag_type == "polling_trigger")).length = 2 := by
      decide
    rw [h2] at h
    exact absurd h (by norm_num)

-- ============================================================
-- C9: determinism and the map iteration order
-- ============================================================

/-- find? is invariant under permutation when the satisfiers of the
predicate are unique. -/
theorem find_eq_of_perm_unique {α : Type} {p : α → Bool} {l1 l2 : List α}
    (hperm : l1.Perm l2)
    (huniq : ∀ a ∈ l1, ∀ b ∈ l1, p a = true → p b = true → a = b) :
    l1.find? p = l2.find? p := by
  cases hf1 : l1.find? p with
  | none =>
      cases hf2 : l2.find? p with
      | none => rfl
      | some b =>
          exfalso
          have hb := List.find?_some hf2
          have hbmem : b ∈ l1 := hperm.mem_iff.mpr (List.mem_of_find?_eq_some hf2)
          have := List.find?_eq_none.mp hf1 b hbmem
          exact this hb
  | some a =>
      have ha := List.find?_some hf1
      have hamem := List.mem_of_find?_eq_some hf1
      cases hf2 : l2.find? p with
      | none =>
          exfalso
          have hamem2 : a ∈ l2 := hperm.mem_iff.mp hamem
          exact List.find?_eq_none.mp hf2 a hamem2 ha
      | some b =>
          have hb := List.find?_some hf2
          have hbmem : b ∈ l1 := hperm.mem_iff.mpr (List.mem_of_find?_eq_some hf2)
          rw [huniq a hamem b hbmem ha hb]

/-- The chain walk only looks at the node list through the indexed
parent lookups, so equal lookups give equal chains. -/
theorem chainFrom_eq_of_find {nodes1 nodes2 : List Node}
    (hfind : ∀ c : Nat, nodes1.find? (fun n => n.parent_id == some c) =
      nodes2.find? (fun n => n.parent_id == some c)) :
    ∀ (fuel cur : Nat), chainFrom nodes1 cur fuel = chainFrom nodes2 cur fuel := by
  intro fuel
  induction fuel with
  | zero => intro cur; rfl
  | succ f ih =>
      intro cur
      simp only [chainFrom]
      rw [hfind cur]
      cases nodes2.find? (fun n => n.parent_id == some cur) with
      | none => rfl
      | some n =>
          simp only [List.cons.injEq, true_and]
          exact ih n.id

/-- Order-sensitivity fixture: a proper chain ending in a filter. -/
def c9main : List (String × Node) :=
  [("1", mkNode 1 none "read" "ShopifyCLIAPI@1.0.0" "" none),
   ("2", mkNode 2 (some 1) "write" "GmailCLIAPI@1.0.0" "Send Email" none),
   ("3", mkNode 3 (some 2) "write" "SlackCLIAPI@1.0.0" "Send Message" none),
   ("4", mkNode 4 (some 3) "write" "FilterCLIAPI@1.0.0" "Filter" none)]

/-- A second parentless node with no children. -/
def c9stray : List (String × Node) :=
  [("9", mkNode 9 none "read" "RSSCLIAPI@1.0.0" "" none)]

/-- The same node map observed in one iteration order... -/
def c9zap1 : Zap :=
  { id := 50, title := "Z", status := "on", nodes := c9main ++ c9stray,
    usage_stats := none }

/-- ...and in another. -/
def c9zap2 : Zap :=
  { id := 50, title := "Z", status := "on", nodes := c9stray ++ c9main,
    usage_stats := none }

/-- C9 counterexample: the two zaps hold the same node map entries (the
lists are permutations) and agree on every other field, yet the late
filter detector flags one and not the other, because the trigger lookup
takes the first parentless node of the iteration order. -/
theorem c9_order_invariance_counterexample :
    c9zap1.nodes.Perm c9zap2.nodes ∧
    c9zap1.id = c9zap2.id ∧ c9zap1.title = c9zap2.title ∧
    c9zap1.status = c9zap2.status ∧ c9zap1.usage_stats = c9zap2.usage_stats ∧
    (detect_late_filter_placement c9zap1 (.fin (49/2000))).isSome = true ∧
    (detect_late_filter_placement c9zap2 (.fin (49/2000))).isSome = false := by
  refine ⟨List.perm_append_comm, rfl, rfl, rfl, rfl, rfl, rfl⟩

/-- C9 (amended): the detectors are pure functions of the parsed
content and the map iteration order; the iteration order is not
determined by the input bytes.  Determinism across orders holds for the
late filter detector when the workflow is well formed: a unique
parentless trigger node and at most one child per node.  Then any
reordering of the node map entries leaves its output unchanged. -/
theorem c9_order_invariance_amended (z : Zap) (nodes2 : List (String × Node))
    (price : F)
    (hperm : z.nodes.Perm nodes2)
    (huniq : ∀ a ∈ zapNodeValues z, ∀ b ∈ zapNodeValues z,
      a.parent_id = none → b.parent_id = none → a = b)
    (hsucc : ∀ c : Nat, ∀ a ∈ zapNodeValues z, ∀ b ∈ zapNodeValues z,
      a.parent_id = some c → b.parent_id = some c → a = b) :
    detect_late_filter_placement { z with nodes := nodes2 } price =
      detect_late_filter_placement z price := by
  have hvals : (zapNodeValues { z with nodes := nodes2 }).Perm (zapNodeValues z) :=
    (hperm.map _).symm
  have htrig : findTriggerNode (zapNodeValues { z with nodes := nodes2 }) =
      findTriggerNode (zapNodeValues z) := by
    refine find_eq_of_perm_unique hvals ?_
    intro a ha b hb hpa hpb
    exact huniq a (hvals.mem_iff.mp ha) b (hvals.mem_iff.mp hb)
      (Option.isNone_iff_eq_none.mp hpa) (Option.isNone_iff_eq_none.mp hpb)
  have hfindc : ∀ c : Nat,
      (zapNodeValues { z with nodes := nodes2 }).find?
        (fun n => n.parent_id == some c) =
      (zapNodeValues z).find? (fun n => n.parent_id == some c) := by
    intro c
    refine find_eq_of_perm_unique hvals ?_
    intro a ha b hb hpa hpb
    exact hsucc c a (hvals.mem_iff.mp ha) b (hvals.mem_iff.mp hb)
      (by simpa using hpa) (by simpa using hpb)
  have hlen : (zapNodeValues { z with nodes := nodes2 }).length =
      (zapNodeValues z).length := hvals.length_eq
  have hord : orderedNodesOf { z with nodes := nodes2 } = orderedNodesOf z := by
    unfold orderedNodesOf
    rw [htrig]
    cases findTriggerNode (zapNodeValues z) with
    | none => rfl
    | some trigger =>
        simp only [Option.map_some']
        rw [hlen, chainFrom_eq_of_find hfindc]
  unfold detect_late_filter_placement
  rw [hord]

/-- A well formed zap: the chain without the stray node. -/
def c9zap0 : Zap :=
  { id := 50, title := "Z", status := "on", nodes := c9main, usage_stats := none }

/-- The same entries with the first two swapped. -/
def c9swapped : List (String × Node) :=
  [("2", mkNode 2 (some 1) "write" "GmailCLIAPI@1.0.0" "Send Email" none),
   ("1", mkNode 1 none "read" "ShopifyCLIAPI@1.0.0" "" none),
   ("3", mkNode 3 (some 2) "write" "SlackCLIAPI@1.0.0" "Send Message" none),
   ("4", mkNode 4 (some 3) "write" "FilterCLIAPI@1.0.0" "Filter" none)]

theorem c9_order_invariance_amended_witness :
    detect_late_filter_placement { c9zap0 with nodes := c9swapped } (.fin (49/2000)) =
      detect_late_filter_placement c9zap0 (.fin (49/2000)) := by
  refine c9_order_invariance_amended c9zap0 c9swapped (.fin (49/2000)) ?_ ?_ ?_
  · simp only [c9zap0, c9main, c9swapped]
    exact List.Perm.swap _ _ _
  · intro a ha b hb hpa hpb
    simp only [zapNodeValues, c9zap0, c9main, List.map_cons, List.map_nil,
      List.mem_cons, List.not_mem_nil, or_false] at ha hb
    rcases ha with rfl | rfl | rfl | rfl <;> rcases hb with rfl | rfl | rfl | rfl <;>
      simp_all [mkNode]
  · intro c a ha b hb hpa hpb
    simp only [zapNodeValues, c9zap0, c9main, List.map_cons, List.map_nil,
      List.mem_cons, List.not_mem_nil, or_false] at ha hb
    rcases ha with rfl | rfl | rfl | rfl <;> rcases hb with rfl | rfl | rfl | rfl <;>
      simp_all [mkNode] <;> omega
